import Mathlib

/-!
Tegra11x CPU idle driver: LP2 admission, gate selection and latency learning.

A shallow embedding of `arch/arm/mach-tegra/cpuidle-t11x.c`.

* C integers are mathematical integers with explicit wrap-around: `int32` for `int`,
  `s64` for `s64`, `u32`/`u64` for the unsigned types.
* The driver's static variables form the record `World`.  Calls into other kernel
  subsystems are recorded, in program order, in `World.trace`.
* Values the driver reads from hardware or from other subsystems during one idle attempt
  (cluster mode, online CPU count, register contents, clock readings, the return code of
  the suspend primitive, ...) are the fields of `Env`, one field per read
  (`num_online_cpus` is read by `tegra11x_idle_lp2`, `num_online_cpus_recheck` by
  `tegra_cpu_cluster_power_down`; likewise `rail` and `rail_recheck`).  `is_lp_cluster()`
  is taken to be constant during one attempt.
* The build is the SMP one (`CONFIG_SMP` defined, `CONFIG_NR_CPUS = 4`, the length of
  `tegra_cpu_wake_by_time`); `CONFIG_TEGRA_LP2_CPU_TIMER` is a field of `Platform`.
* `BUG_ON` is modelled by the result `none`.
-/

namespace CpuidleT11x

/-! ## Machine integers and kernel primitives -/

/-- Wrap a mathematical integer to a C `int` (32-bit two's complement). -/
def int32 (x : Int) : Int := (x + 2147483648) % 4294967296 - 2147483648

/-- Wrap a mathematical integer to an `s64` (64-bit two's complement). -/
def s64 (x : Int) : Int := (x + 9223372036854775808) % 18446744073709551616 - 9223372036854775808

/-- Convert to `u32` / `unsigned int`: reduction modulo 2^32. -/
def u32 (x : Int) : Nat := (x % 4294967296).toNat

/-- Convert to `u64` / `unsigned long long`: reduction modulo 2^64. -/
def u64 (x : Int) : Nat := (x % 18446744073709551616).toNat

/-- Modelled from the spec: the constant `LLONG_MAX` (linux/kernel.h) is not under src/; it
is the "no deadline" value, the maximum representable `s64`. -/
def LLONG_MAX : Int := 9223372036854775807

/-- Number of CPUs of the build: the length of `tegra_cpu_wake_by_time` (line 76). -/
def CONFIG_NR_CPUS : Nat := 4

/-- The bit `ARCH_TIMER_CTRL_ENABLE` (line 72). -/
def ARCH_TIMER_CTRL_ENABLE : Nat := 1

/-- The bit `ARCH_TIMER_CTRL_IT_MASK` (line 73). -/
def ARCH_TIMER_CTRL_IT_MASK : Nat := 2

/-- Bitwise complement `~x` of a 32-bit unsigned value. -/
def bnot32 (x : Nat) : Nat := 4294967295 - x % 4294967296

/-- Loop of `fls`: number of binary digits of `x`, looking at no more than `fuel` digits. -/
def flsAux : Nat → Nat → Nat
  | 0, _ => 0
  | fuel + 1, x => if x = 0 then 0 else flsAux fuel (x / 2) + 1

/-- Modelled from the spec: `fls` (linux/bitops.h) is not under src/; it gives the
logarithmic (log2) bucket of a 32-bit value: the 1-based position of its most significant
set bit, and 0 for 0. -/
def fls (x : Nat) : Nat := flsAux 32 x

/-- Modelled from the spec: the macro `clamp(val, min, max)` (linux/kernel.h) is not under
src/; it bounds `val` to the configured range `[lo, hi]`. -/
def clamp (val lo hi : Int) : Int :=
  let v := if val < lo then lo else val
  if v > hi then hi else v

/-- Modelled from the spec: `cpumask_test_cpu` (linux/cpumask.h) is not under src/; the
administrative exclusion is a bitmask configuration, and the test reads bit `cpu` of it. -/
def cpumask_test_cpu (cpu : Nat) (mask : Nat) : Bool := mask.testBit cpu

/-- The function `time_to_bin` (lines 106-109). -/
def time_to_bin (time : Nat) : Nat := fls time

/-- The function `cpu_number` (lines 117-120); `is_lp_cluster` is the value of
`is_lp_cluster()`. -/
def cpu_number (is_lp_cluster : Bool) (n : Nat) : Nat := if is_lp_cluster then 4 else n

/-! ## Data model -/

/-- Calls into other kernel subsystems and hardware, as recorded in the trace. -/
inductive Event where
  | set_cpu_in_lp2 (cpu : Nat)
  | clear_cpu_in_lp2 (cpu : Nat)
  | cpu_wfi
  | gic_dist_disable
  | gic_dist_enable
  | gic_disable_affinity
  | gic_restore_affinity
  | lp2_timer_cancel_secondary
  | cpu_pm_enter
  | cpu_pm_exit
  | broadcast_enter (cpu : Nat)
  | broadcast_exit (cpu : Nat)
  | dvfs_rail_off
  | dvfs_rail_on
  | idle_lp2_last (sleep_time : Int) (flag : Nat)
  | arch_timer_write_tval (tval : Int)
  | arch_timer_suspend
  | arch_timer_resume
  | lp2_set_trigger (t : Int)
  | wake_by_time_store (cpu : Nat) (t : Int)
  | cpu_suspend
  deriving DecidableEq, Repr

/-- The fields of `struct cpuidle_state` the driver uses (both `unsigned int`). -/
structure CpuidleState where
  exit_latency : Nat
  target_residency : Nat
  deriving DecidableEq, Repr

/-- The field of `struct cpuidle_device` the driver uses. -/
structure CpuidleDevice where
  cpu : Nat
  deriving DecidableEq, Repr

/-- The static `idle_stats` (lines 93-104); arrays are lists. -/
structure IdleStats where
  cpu_ready_count : List Nat
  tear_down_count : List Nat
  cpu_wants_lp2_time : List Nat
  in_lp2_time : List Nat
  lp2_count : Nat
  lp2_completed_count : Nat
  lp2_count_bin : List Nat
  lp2_completed_count_bin : List Nat
  lp2_int_count : List Nat
  last_lp2_int_count : List Nat
  deriving DecidableEq, Repr

/-- Modelled from the spec: the interrupt controller behind `tegra_gic_dist_disable`,
`tegra_gic_dist_enable`, `tegra_gic_disable_affinity` and `tegra_gic_restore_affinity`
(gic.c, not under src/): global dispatch can be disabled and enabled, and the per-core
affinity can be saved, rerouted and restored. -/
structure Gic where
  dist_enabled : Bool
  affinity : List Nat
  saved_affinity : List Nat
  deriving DecidableEq, Repr

/-- The driver's static variables, the interrupt controller, and the trace of calls. -/
structure World where
  cpu_power_gating_in_idle : Nat
  slow_cluster_power_gating_noncpu : Bool
  fast_cluster_power_down_mode : Nat
  lp2_exit_latencies : List Int
  tegra_cpu_wake_by_time : List Int
  idle_stats : IdleStats
  gic : Gic
  trace : List Event
  deriving DecidableEq, Repr

/-- Constants and helpers of the kernel that are declared outside this file. -/
structure Platform where
  CONFIG_TEGRA_LP2_CPU_TIMER : Bool
  TEGRA_POWER_CLUSTER_PART_SHIFT : Nat
  TEGRA_POWER_CLUSTER_PART_MASK : Nat
  TEGRA_POWER_CLUSTER_PART_NONCPU : Nat
  NR_IRQS : Nat
  tegra_lp2_exit_latency : Int
  tegra_lp2_update_target_residency : CpuidleState → CpuidleState

/-- The registers and the rail status read by `tegra_rail_off_is_allowed`. -/
structure RailRegs where
  cpu_cmplx_status : Nat
  powergate_status : Nat
  rail_updating : Bool
  deriving DecidableEq, Repr

/-- What `arch_timer_get_state` returns: its return code and the context it fills in
(`cntp_tval` is signed, `cntp_ctl` and `cntfrq` are unsigned 32-bit). -/
structure ArchTimerContext where
  err : Int
  cntp_tval : Int
  cntp_ctl : Nat
  cntfrq : Nat
  deriving DecidableEq, Repr

/-- Everything one idle attempt reads from outside the driver.  `sleep_length_us` is
`ktime_to_us(tick_nohz_get_sleep_length())`, `entry_time_us` is `ktime_to_us(entry_time)`,
`elapsed_us` is `ktime_to_us` of the time from entry to exit, `lp2_last_ret` is the return
code of `tegra_idle_lp2_last`. -/
structure Env where
  is_lp_cluster : Bool
  num_online_cpus : Nat
  num_online_cpus_recheck : Nat
  sleep_length_us : Int
  rail : RailRegs
  rail_recheck : RailRegs
  entry_time_us : Int
  elapsed_us : Int
  lp2_last_ret : Int
  pending_irq : Nat
  timer_before : ArchTimerContext
  timer_after : ArchTimerContext
  lp2_timer_ready : Bool
  tick_sched_present : Bool
  nohz_mode_inactive : Bool
  lp2_timer_remain : Nat
  deriving DecidableEq, Repr

/-- What an attempt leaves behind: the return value, the locals `sleep_completed` and
`request` as they stand at the return, and the new world and idle state. -/
structure Result where
  entered : Bool
  sleep_completed : Bool
  request : Int
  world : World
  state : CpuidleState
  deriving DecidableEq, Repr

/-! ## World updates -/

/-- Record a call in the trace. -/
def World.emit (w : World) (e : Event) : World := { w with trace := w.trace ++ [e] }

/-- The statement `xs[i]++` on an array of `unsigned int`. -/
def incr32 (xs : List Nat) (i : Nat) : List Nat := xs.set i ((xs.getD i 0 + 1) % 4294967296)

/-- The statement `xs[i] += us` on an array of `unsigned long long`, `us` an `s64`. -/
def add64 (xs : List Nat) (i : Nat) (us : Int) : List Nat :=
  xs.set i (u64 ((xs.getD i 0 : Int) + us))

/-- Modelled from the spec: `tegra_gic_dist_disable` (gic.c, not under src/) disables
interrupt distribution globally. -/
def tegra_gic_dist_disable (w : World) : World :=
  { w with gic := { w.gic with dist_enabled := false }, trace := w.trace ++ [Event.gic_dist_disable] }

/-- Modelled from the spec: `tegra_gic_dist_enable` (gic.c, not under src/) re-enables
interrupt distribution. -/
def tegra_gic_dist_enable (w : World) : World :=
  { w with gic := { w.gic with dist_enabled := true }, trace := w.trace ++ [Event.gic_dist_enable] }

/-- Modelled from the spec: `tegra_gic_disable_affinity` (gic.c, not under src/) saves the
peer cores' interrupt affinity and reroutes every interrupt onto the surviving core 0
(target mask 1). -/
def tegra_gic_disable_affinity (w : World) : World :=
  { w with
    gic := { w.gic with saved_affinity := w.gic.affinity, affinity := w.gic.affinity.map (fun _ => 1) },
    trace := w.trace ++ [Event.gic_disable_affinity] }

/-- Modelled from the spec: `tegra_gic_restore_affinity` (gic.c, not under src/) restores
the affinity to its saved, pre-handoff assignment. -/
def tegra_gic_restore_affinity (w : World) : World :=
  { w with
    gic := { w.gic with affinity := w.gic.saved_affinity },
    trace := w.trace ++ [Event.gic_restore_affinity] }

/-! ## The driver -/

/-- The function `tegra_rail_off_is_allowed` (lines 134-146): rail off is allowed only if
all secondary CPUs are power gated and no rail update is in progress. -/
def tegra_rail_off_is_allowed (r : RailRegs) : Bool :=
  let rst := r.cpu_cmplx_status % 4294967296
  let pg := (r.powergate_status % 4294967296) >>> 8
  if (rst &&& 0xE) ≠ 0xE ∨ (pg &&& 0xE) ≠ 0 then false
  else if r.rail_updating then false
  else true

/-- The function `tegra11x_lp2_is_allowed` (lines 148-169); the request is
`ktime_to_us(tick_nohz_get_sleep_length())`.  Returns the verdict and the idle state as the
call leaves it. -/
def tegra11x_lp2_is_allowed (pf : Platform) (env : Env) (w : World) (dev : CpuidleDevice)
    (state : CpuidleState) : Bool × CpuidleState :=
  if ¬ cpumask_test_cpu (cpu_number env.is_lp_cluster dev.cpu) w.cpu_power_gating_in_idle then
    (false, state)
  else
    let request := env.sleep_length_us
    let lat := w.lp2_exit_latencies.getD (cpu_number env.is_lp_cluster dev.cpu) 0
    let state :=
      if state.exit_latency ≠ u32 lat then
        pf.tegra_lp2_update_target_residency { state with exit_latency := u32 lat }
      else state
    if request < (state.target_residency : Int) then (false, state)
    else (true, state)

/-- The function `tegra11_lp2_restore_affinity` (lines 171-183). -/
def tegra11_lp2_restore_affinity (w : World) : World :=
  tegra_gic_dist_enable (tegra_gic_restore_affinity (tegra_gic_dist_disable w))

/-- The loop of lines 231-233: fold `min_t(s64, ...)` over the peer slots `i = 1 ..`. -/
def min_peer_wake_time (wake_by : List Int) (wake_time : Int) : Int :=
  (List.range' 1 (CONFIG_NR_CPUS - 1)).foldl (fun wt i => min wt (wake_by.getD i 0)) wake_time

/-- The value of `wake_time` after lines 227-233. -/
def collective_wake_time (entry_time_us request : Int) (wake_by : List Int) : Int :=
  min_peer_wake_time wake_by (s64 (entry_time_us + request))

/-- The value of `request` after line 236. -/
def adjusted_request (entry_time_us request : Int) (wake_by : List Int) : Int :=
  s64 (collective_wake_time entry_time_us request wake_by - entry_time_us)

/-- The arithmetic of the completion branches (lines 301-305 and 401-404): the new exit
latency from the old one, the measured duration and the request. -/
def adjust_exit_latency (old elapsed request : Int) : Int :=
  let offset := int32 (elapsed - request)
  let latency := int32 (old + Int.tdiv offset 16)
  clamp latency 0 10000

/-- The stores of the completion branches (lines 301-307 and 401-406) for the statistics
slot `slot`. -/
def learn_exit_latency (w : World) (state : CpuidleState) (slot : Nat) (elapsed request : Int) :
    World × CpuidleState :=
  let latency := adjust_exit_latency (w.lp2_exit_latencies.getD slot 0) elapsed request
  ({ w with lp2_exit_latencies := w.lp2_exit_latencies.set slot latency },
   { state with exit_latency := u32 latency })

/-- The value `(fast_cluster_power_down_mode << TEGRA_POWER_CLUSTER_PART_SHIFT) &&
TEGRA_POWER_CLUSTER_PART_MASK` (lines 273-275 and 424-426), a logical conjunction. -/
def cluster_part_flag (pf : Platform) (w : World) : Bool :=
  decide (((w.fast_cluster_power_down_mode <<< pf.TEGRA_POWER_CLUSTER_PART_SHIFT) % 4294967296) ≠ 0)
    && decide (pf.TEGRA_POWER_CLUSTER_PART_MASK ≠ 0)

/-- An abort to WFI: `tegra_cpu_wfi(); return false;`. -/
def abort_wfi (w : World) (state : CpuidleState) (request : Int) : Result :=
  { entered := false, sleep_completed := false, request := request,
    world := w.emit Event.cpu_wfi, state := state }

/-- Lines 257-320 of `tegra_cpu_cluster_power_down`: the sleep itself, its statistics and
the latency feedback. -/
def cluster_sleep (pf : Platform) (env : Env) (w : World) (dev : CpuidleDevice)
    (state : CpuidleState) (request : Int) (multi_cpu_entry : Bool) : Result :=
  let slot := cpu_number env.is_lp_cluster dev.cpu
  let w := w.emit Event.cpu_pm_enter
  let sleep_time := s64 (request - w.lp2_exit_latencies.getD slot 0)
  let bin := time_to_bin (u32 request / 1000)
  let w := { w with idle_stats := { w.idle_stats with
    tear_down_count := incr32 w.idle_stats.tear_down_count slot,
    lp2_count := (w.idle_stats.lp2_count + 1) % 4294967296,
    lp2_count_bin := incr32 w.idle_stats.lp2_count_bin bin } }
  let w := w.emit (Event.broadcast_enter dev.cpu)
  let flag := if env.is_lp_cluster then pf.TEGRA_POWER_CLUSTER_PART_NONCPU
    else if cluster_part_flag pf w then 1 else 0
  let w := if env.is_lp_cluster then w else w.emit Event.dvfs_rail_off
  let w := w.emit (Event.idle_lp2_last sleep_time flag)
  let sleep_completed := decide (env.lp2_last_ret = 0)
  let w := if sleep_completed then w
    else { w with idle_stats := { w.idle_stats with
      lp2_int_count := incr32 w.idle_stats.lp2_int_count env.pending_irq } }
  let w := w.emit (Event.broadcast_exit dev.cpu)
  let w := if ¬ env.is_lp_cluster then w.emit Event.dvfs_rail_on else w
  let w := { w with idle_stats := { w.idle_stats with
    in_lp2_time := add64 w.idle_stats.in_lp2_time slot env.elapsed_us } }
  let w := if multi_cpu_entry then tegra11_lp2_restore_affinity w else w
  let ws := if sleep_completed then
      let ws := learn_exit_latency w state slot env.elapsed_us request
      ({ ws.1 with idle_stats := { ws.1.idle_stats with
          lp2_completed_count := (ws.1.idle_stats.lp2_completed_count + 1) % 4294967296,
          lp2_completed_count_bin := incr32 ws.1.idle_stats.lp2_completed_count_bin bin } },
       ws.2)
    else (w, state)
  { entered := true, sleep_completed := sleep_completed, request := request,
    world := ws.1.emit Event.cpu_pm_exit, state := ws.2 }

/-- The function `tegra_cpu_cluster_power_down` (lines 185-321).  The result is `none` when
`BUG_ON(wake_time < 0LL)` fires. -/
def tegra_cpu_cluster_power_down (pf : Platform) (env : Env) (w : World) (dev : CpuidleDevice)
    (state : CpuidleState) (request : Int) : Option Result :=
  if request < (state.target_residency : Int) then
    some (abort_wfi w state request)
  else
    let multi_cpu_entry := !env.is_lp_cluster && decide (env.num_online_cpus_recheck > 1)
    if multi_cpu_entry then
      let w := tegra_gic_dist_disable w
      if ¬ tegra_rail_off_is_allowed env.rail_recheck then
        some (abort_wfi (tegra_gic_dist_enable w) state request)
      else
        let wake_time := collective_wake_time env.entry_time_us request w.tegra_cpu_wake_by_time
        let request := adjusted_request env.entry_time_us request w.tegra_cpu_wake_by_time
        if wake_time < 0 then none
        else if request < (state.target_residency : Int) then
          some (abort_wfi (tegra_gic_dist_enable w) state request)
        else
          let w := w.emit Event.lp2_timer_cancel_secondary
          let w := tegra_gic_disable_affinity w
          let w := tegra_gic_dist_enable w
          some (cluster_sleep pf env w dev state request true)
    else
      some (cluster_sleep pf env w dev state request false)

/-- Lines 333-353 of `tegra_cpu_core_power_down`: the reading of the countdown timer.
`none` is the early abort of lines 336-339; otherwise the request and the world to go on
with. -/
def core_timer_request (pf : Platform) (env : Env) (w : World) (state : CpuidleState)
    (request : Int) : Option (Int × World) :=
  let t := env.timer_before
  if t.err = 0 then
    if (t.cntp_ctl &&& ARCH_TIMER_CTRL_ENABLE) ≠ 0 ∧
        bnot32 (t.cntp_ctl &&& ARCH_TIMER_CTRL_IT_MASK) ≠ 0 then
      if t.cntp_tval ≤ 0 then none
      else
        let request : Int := ((u64 (t.cntp_tval * 1000000) / (t.cntfrq % 4294967296) : Nat) : Int)
        if pf.CONFIG_TEGRA_LP2_CPU_TIMER = true ∧ request ≥ (state.target_residency : Int) then
          some (request, w.emit (Event.arch_timer_write_tval
            (int32 (t.cntp_tval - ((state.exit_latency * (t.cntfrq / 1000000) : Nat) : Int)))))
        else some (request, w)
    else some (request, w)
  else some (request, w)

/-- Lines 365-412 of `tegra_cpu_core_power_down`: the suspend, its statistics and the
latency feedback. -/
def core_sleep (pf : Platform) (env : Env) (w : World) (dev : CpuidleDevice)
    (state : CpuidleState) (request : Int) : Result :=
  let slot := cpu_number env.is_lp_cluster dev.cpu
  let w := w.emit Event.cpu_pm_enter
  let w := if pf.CONFIG_TEGRA_LP2_CPU_TIMER then w
    else ((w.emit (Event.broadcast_enter dev.cpu)).emit Event.arch_timer_suspend).emit
      (Event.lp2_set_trigger (s64 (request - (state.exit_latency : Int))))
  let w := { w with idle_stats := { w.idle_stats with
    tear_down_count := incr32 w.idle_stats.tear_down_count slot } }
  let wake_by := s64 (env.entry_time_us + request)
  let w := { w with tegra_cpu_wake_by_time := w.tegra_cpu_wake_by_time.set dev.cpu wake_by }
  let w := w.emit (Event.wake_by_time_store dev.cpu wake_by)
  let w := w.emit Event.cpu_suspend
  let w := { w with tegra_cpu_wake_by_time := w.tegra_cpu_wake_by_time.set dev.cpu LLONG_MAX }
  let sleep_completed :=
    if pf.CONFIG_TEGRA_LP2_CPU_TIMER then
      (if env.timer_after.err = 0 then decide (env.timer_after.cntp_tval ≤ 0) else false)
    else decide (env.lp2_timer_remain = 0)
  let w := if pf.CONFIG_TEGRA_LP2_CPU_TIMER then w
    else ((w.emit (Event.lp2_set_trigger 0)).emit Event.arch_timer_resume).emit
      (Event.broadcast_exit dev.cpu)
  let sleep_time := env.elapsed_us
  let w := { w with idle_stats := { w.idle_stats with
    in_lp2_time := add64 w.idle_stats.in_lp2_time slot sleep_time } }
  let ws := if sleep_completed then learn_exit_latency w state slot sleep_time request
    else (w, state)
  { entered := true, sleep_completed := sleep_completed, request := request,
    world := ws.1.emit Event.cpu_pm_exit, state := ws.2 }

/-- The function `tegra_cpu_core_power_down` (lines 323-413). -/
def tegra_cpu_core_power_down (pf : Platform) (env : Env) (w : World) (dev : CpuidleDevice)
    (state : CpuidleState) (request : Int) : Result :=
  match core_timer_request pf env w state request with
  | none => abort_wfi w state request
  | some (request, w) =>
    if env.lp2_timer_ready = false ∨ request < (state.target_residency : Int) ∨
        env.tick_sched_present = false ∨ env.nohz_mode_inactive = true then
      abort_wfi w state request
    else core_sleep pf env w dev state request

/-- The local `cpu_gating_only` of `tegra11x_idle_lp2` (lines 424-426), computed with the
logical `&&` of the source. -/
def cpu_gating_only (pf : Platform) (w : World) : Bool := cluster_part_flag pf w == false

/-- The local `power_gating_cpu_only` of `tegra11x_idle_lp2` after lines 428-439. -/
def power_gating_cpu_only (pf : Platform) (env : Env) (w : World) (dev : CpuidleDevice) : Bool :=
  if env.is_lp_cluster then
    (if w.slow_cluster_power_gating_noncpu then false else true)
  else if !cpu_gating_only pf w && decide (dev.cpu = 0) && decide (env.num_online_cpus = 1)
      && tegra_rail_off_is_allowed env.rail then false
  else true

/-- The end of `tegra11x_idle_lp2` (lines 446-448). -/
def clear_cpu_in_lp2 (dev : CpuidleDevice) (r : Result) : Result :=
  { r with world := r.world.emit (Event.clear_cpu_in_lp2 dev.cpu) }

/-- The function `tegra11x_idle_lp2` (lines 415-449). -/
def tegra11x_idle_lp2 (pf : Platform) (env : Env) (w : World) (dev : CpuidleDevice)
    (state : CpuidleState) : Option Result :=
  let request := env.sleep_length_us
  let w1 := w.emit (Event.set_cpu_in_lp2 dev.cpu)
  let entered_lp2 :=
    if power_gating_cpu_only pf env w dev then
      some (tegra_cpu_core_power_down pf env w1 dev state request)
    else tegra_cpu_cluster_power_down pf env w1 dev state request
  entered_lp2.map (clear_cpu_in_lp2 dev)

/-- The function `tegra11x_cpuidle_init_soc` (lines 451-461): every latency slot is seeded
with `tegra_lp2_exit_latency`. -/
def tegra11x_cpuidle_init_soc (pf : Platform) (w : World) : World :=
  { w with lp2_exit_latencies := List.replicate 5 (int32 pf.tegra_lp2_exit_latency) }

/-- The static initialisers of the file (lines 76-104). -/
def boot_world (pf : Platform) (gic : Gic) : World :=
  { cpu_power_gating_in_idle := 0x1f
    slow_cluster_power_gating_noncpu := false
    fast_cluster_power_down_mode := 0
    lp2_exit_latencies := List.replicate 5 0
    tegra_cpu_wake_by_time := List.replicate 4 LLONG_MAX
    idle_stats :=
      { cpu_ready_count := List.replicate 5 0
        tear_down_count := List.replicate 5 0
        cpu_wants_lp2_time := List.replicate 5 0
        in_lp2_time := List.replicate 5 0
        lp2_count := 0
        lp2_completed_count := 0
        lp2_count_bin := List.replicate 32 0
        lp2_completed_count_bin := List.replicate 32 0
        lp2_int_count := List.replicate pf.NR_IRQS 0
        last_lp2_int_count := List.replicate pf.NR_IRQS 0 }
    gic := gic
    trace := [] }

/-! ## Effects, invariants and runs -/

/-- The learned latency table and the idle state after an attempt, in terms of the locals
`sleep_completed` and `request` at its return: on completion the slot of the core holds the
adjusted latency, otherwise nothing changed. -/
def latency_effect (env : Env) (dev : CpuidleDevice) (w : World) (state : CpuidleState)
    (r : Result) : Prop :=
  r.world.lp2_exit_latencies =
    (if r.sleep_completed = true then
      w.lp2_exit_latencies.set (cpu_number env.is_lp_cluster dev.cpu)
        (adjust_exit_latency (w.lp2_exit_latencies.getD (cpu_number env.is_lp_cluster dev.cpu) 0)
          env.elapsed_us r.request)
    else w.lp2_exit_latencies) ∧
  r.state =
    (if r.sleep_completed = true then
      { state with exit_latency := u32 (adjust_exit_latency
          (w.lp2_exit_latencies.getD (cpu_number env.is_lp_cluster dev.cpu) 0)
          env.elapsed_us r.request) }
    else state) ∧
  (r.entered = false → r.sleep_completed = false)

/-- The invariant of the learned latency table: five entries, each within [0, 10000]. -/
def latencies_in_range (w : World) : Prop :=
  w.lp2_exit_latencies.length = 5 ∧ ∀ x ∈ w.lp2_exit_latencies, 0 ≤ x ∧ x ≤ 10000

/-- One latency update: a completion branch run for statistics slot `slot` with the measured
duration `elapsed_us` and the request `request`. -/
structure LatencyUpdate where
  slot : Nat
  elapsed_us : Int
  request : Int
  deriving DecidableEq, Repr

/-- A sequence of latency updates, each the completion branch of lines 301-307 / 401-406. -/
def run_updates : World × CpuidleState → List LatencyUpdate → World × CpuidleState
  | ws, [] => ws
  | ws, u :: us => run_updates (learn_exit_latency ws.1 ws.2 u.slot u.elapsed_us u.request) us

/-- A sequence of whole idle attempts through `tegra11x_idle_lp2`, each with its own
environment, device and idle state; a `BUG_ON` halts the machine. -/
def run_attempts (pf : Platform) : World → List (Env × CpuidleDevice × CpuidleState) → World
  | w, [] => w
  | w, a :: rest =>
    match tegra11x_idle_lp2 pf a.1 w a.2.1 a.2.2 with
    | none => w
    | some r => run_attempts pf r.world rest

/-! ## Concrete inputs used in the examples -/

/-- A Tegra11x platform: cluster partition flags in bits 24 and 25, a 2 ms default exit
latency, and a target residency of exit latency plus 800 us. -/
def demo_platform : Platform :=
  { CONFIG_TEGRA_LP2_CPU_TIMER := false
    TEGRA_POWER_CLUSTER_PART_SHIFT := 24
    TEGRA_POWER_CLUSTER_PART_MASK := 0x3000000
    TEGRA_POWER_CLUSTER_PART_NONCPU := 0x2000000
    NR_IRQS := 8
    tegra_lp2_exit_latency := 2000
    tegra_lp2_update_target_residency := fun s =>
      { s with target_residency := s.exit_latency + 800 } }

/-- An interrupt controller with three shared interrupts routed to cores 1, 2 and 3. -/
def demo_gic : Gic := { dist_enabled := true, affinity := [2, 4, 8], saved_affinity := [] }

/-- The world after boot and `tegra11x_cpuidle_init_soc`, with the learned latency of
every slot at 200 us. -/
def demo_world : World :=
  { boot_world demo_platform demo_gic with lp2_exit_latencies := List.replicate 5 200 }

/-- The demo world with cluster power gating enabled by configuration. -/
def demo_world_cluster : World := { demo_world with fast_cluster_power_down_mode := 1 }

/-- Registers with all secondary CPUs power gated and no rail update in flight. -/
def rail_idle : RailRegs := { cpu_cmplx_status := 0xE, powergate_status := 0, rail_updating := false }

/-- Registers with a rail update in flight. -/
def rail_busy : RailRegs := { cpu_cmplx_status := 0xE, powergate_status := 0, rail_updating := true }

/-- A running countdown timer: enabled, 12 MHz, 600000 ticks (50 ms) left. -/
def timer_running : ArchTimerContext :=
  { err := 0, cntp_tval := 600000, cntp_ctl := 1, cntfrq := 12000000 }

/-- Only core 0 online on the fast cluster, rail idle, 80 ms predicted idle, and a sleep
that completes after 78 ms. -/
def demo_env : Env :=
  { is_lp_cluster := false
    num_online_cpus := 1
    num_online_cpus_recheck := 1
    sleep_length_us := 80000
    rail := rail_idle
    rail_recheck := rail_idle
    entry_time_us := 5000000
    elapsed_us := 78000
    lp2_last_ret := 0
    pending_irq := 3
    timer_before := timer_running
    timer_after := { timer_running with cntp_tval := 0 }
    lp2_timer_ready := true
    tick_sched_present := true
    nohz_mode_inactive := false
    lp2_timer_remain := 0 }

/-- The demo environment in the collapsed low-power cluster mode. -/
def demo_env_lp : Env := { demo_env with is_lp_cluster := true }

/-- The idle state configured for a 200 us exit latency. -/
def demo_state : CpuidleState := { exit_latency := 200, target_residency := 1000 }

/-- Core 0. -/
def cpu0 : CpuidleDevice := { cpu := 0 }

/-- Core 1. -/
def cpu1 : CpuidleDevice := { cpu := 1 }

/-- The demo environment with the cluster sleep cut short by interrupt 3 after 500 us. -/
def demo_env_interrupted : Env := { demo_env with lp2_last_ret := 1, elapsed_us := 500 }

/-- What the interrupted cluster-gate attempt of core 0 leaves behind. -/
def demo_interrupted_result : Result :=
  clear_cpu_in_lp2 cpu0
    (cluster_sleep demo_platform demo_env_interrupted
      (demo_world_cluster.emit (Event.set_cpu_in_lp2 0)) cpu0 demo_state 80000 false)

/-- What the completed cluster-gate attempt of core 0 (80 ms requested, 78 ms measured)
leaves behind. -/
def demo_completed_result : Result :=
  clear_cpu_in_lp2 cpu0
    (cluster_sleep demo_platform demo_env
      (demo_world_cluster.emit (Event.set_cpu_in_lp2 0)) cpu0 demo_state 80000 false)

/-- The demo environment with the next timer event 2^32 + 80000 us away; the sleep
completes after 80160 us. -/
def demo_env_long : Env := { demo_env with sleep_length_us := 4295047296, elapsed_us := 80160 }

/-- What the completed cluster-gate attempt of core 0 with the long request leaves behind. -/
def demo_long_result : Result :=
  clear_cpu_in_lp2 cpu0
    (cluster_sleep demo_platform demo_env_long
      (demo_world_cluster.emit (Event.set_cpu_in_lp2 0)) cpu0 demo_state 4295047296 false)

/-- The demo environment with the countdown timer read as disabled; the sleep is cut short
after 20 ms. -/
def demo_env_timer_off : Env :=
  { demo_env with
    timer_before := { timer_running with cntp_ctl := 0 }
    elapsed_us := 20000
    lp2_timer_remain := 7 }

/-- The demo environment with the countdown timer read as enabled and already expired. -/
def demo_env_timer_expired : Env :=
  { demo_env with timer_before := { timer_running with cntp_tval := 0 } }

/-- The events an attempt appended to the trace. -/
def new_events (w : World) (r : Result) : List Event := r.world.trace.drop w.trace.length

/-- Two CPUs are found online at the re-check inside `tegra_cpu_cluster_power_down`. -/
def demo_env_multi : Env := { demo_env with num_online_cpus_recheck := 2 }

/-- The demo world with cores 1 and 3 parked with published wake deadlines. -/
def demo_world_peers : World :=
  { demo_world_cluster with tegra_cpu_wake_by_time := [LLONG_MAX, 5060000, LLONG_MAX, 5030000] }

/-- The world in which the multi-core protocol hands over to the sleep: distributor
cycled, secondary wake timers cancelled, affinity diverted. -/
def demo_world_diverted : World :=
  tegra_gic_dist_enable (tegra_gic_disable_affinity
    ((tegra_gic_dist_disable demo_world_peers).emit Event.lp2_timer_cancel_secondary))

/-- What the completed multi-core cluster-gate attempt leaves behind. -/
def demo_multi_result : Result :=
  cluster_sleep demo_platform demo_env_multi demo_world_diverted cpu0 demo_state 30000 true

/-- The cluster partitions selected by the configuration, as the spec reads it: the shifted
`fast_cluster_power_down_mode` masked bitwise (`&`) with `TEGRA_POWER_CLUSTER_PART_MASK`.
Cluster power gating is disabled by configuration when no partition bit is selected. -/
def cluster_part_bits (pf : Platform) (w : World) : Nat :=
  ((w.fast_cluster_power_down_mode <<< pf.TEGRA_POWER_CLUSTER_PART_SHIFT) % 4294967296)
    &&& pf.TEGRA_POWER_CLUSTER_PART_MASK

/-- The demo world with `fast_cluster_power_down_mode` written to 4 through its module
parameter: a value outside the two partition bits. -/
def demo_world_mode4 : World := { demo_world with fast_cluster_power_down_mode := 4 }

/-! ## Bucket and slot bounds -/

theorem flsAux_le (fuel : Nat) : ∀ (x k : Nat), x < 2 ^ k → flsAux fuel x ≤ k := by
  induction fuel with
  | zero => intro x k _; simp [flsAux]
  | succ n ih =>
    intro x k hx
    unfold flsAux
    by_cases h0 : x = 0
    · simp [h0]
    · rw [if_neg h0]
      cases k with
      | zero => simp at hx; exact absurd hx h0
      | succ k =>
        have hhalf : x / 2 < 2 ^ k := by
          rw [pow_succ] at hx
          omega
        have := ih (x / 2) k hhalf
        omega

theorem flsAux_zero (fuel : Nat) : flsAux fuel 0 = 0 := by
  cases fuel <;> simp [flsAux]

theorem flsAux_spec (fuel : Nat) : ∀ x : Nat, 0 < x → x < 2 ^ fuel →
    2 ^ (flsAux fuel x - 1) ≤ x ∧ x < 2 ^ flsAux fuel x := by
  induction fuel with
  | zero => intro x h0 hx; simp at hx; omega
  | succ n ih =>
    intro x h0 hx
    unfold flsAux
    rw [if_neg (by omega)]
    rw [pow_succ] at hx
    by_cases hhalf : x / 2 = 0
    · rw [hhalf, flsAux_zero]
      simp
      omega
    · obtain ⟨hlo, hhi⟩ := ih (x / 2) (by omega) (by omega)
      generalize flsAux n (x / 2) = k at hlo hhi
      cases k with
      | zero => simp at hhi; omega
      | succ k =>
        simp only [Nat.add_sub_cancel] at hlo ⊢
        rw [pow_succ] at hhi ⊢
        rw [pow_succ]
        omega

/-- The model of `fls` is the bit length: for a non-zero 32-bit value, `fls x` is the
position of the most significant set bit, counted from 1. -/
theorem fls_spec (x : Nat) (h0 : 0 < x) (hx : x < 4294967296) :
    2 ^ (fls x - 1) ≤ x ∧ x < 2 ^ fls x :=
  flsAux_spec 32 x h0 (by norm_num; omega)

theorem u32_lt (x : Int) : u32 x < 4294967296 := by
  unfold u32
  have h1 : 0 ≤ x % 4294967296 := Int.emod_nonneg _ (by norm_num)
  have h2 : x % 4294967296 < 4294967296 := Int.emod_lt_of_pos _ (by norm_num)
  omega

/-- C10: for every 64-bit request the histogram bin `time_to_bin((u32)request / 1000)` is
at most 23, hence a valid index into the 32-entry arrays, and for every `dev->cpu < 4` the
statistics slot `cpu_number(dev->cpu)` is a valid index into the 5-entry arrays. -/
theorem stats_index_in_bounds (request : Int) (is_lp_cluster : Bool) (cpu : Nat) (hcpu : cpu < 4) :
    time_to_bin (u32 request / 1000) = fls (u32 request / 1000) ∧
    time_to_bin (u32 request / 1000) ≤ 23 ∧
    time_to_bin (u32 request / 1000) < 32 ∧
    cpu_number is_lp_cluster cpu < 5 := by
  have hu := u32_lt request
  have hq : u32 request / 1000 < 2 ^ 23 := by
    have : u32 request / 1000 ≤ 4294967 := by omega
    norm_num
    omega
  have hb : time_to_bin (u32 request / 1000) ≤ 23 := flsAux_le 32 _ 23 hq
  refine ⟨rfl, hb, by omega, ?_⟩
  unfold cpu_number
  split <;> omega

/-- Witness of C10: an 80 ms request on core 2 of the fast cluster. -/
theorem stats_index_in_bounds_witness :
    (2 : Nat) < 4 ∧
    (time_to_bin (u32 80000 / 1000) = fls (u32 80000 / 1000) ∧
     time_to_bin (u32 80000 / 1000) ≤ 23 ∧
     time_to_bin (u32 80000 / 1000) < 32 ∧
     cpu_number false 2 < 5) :=
  ⟨by decide, stats_index_in_bounds 80000 false 2 (by decide)⟩

/-! ## Admission -/

/-- C2: `tegra11x_lp2_is_allowed` returns true if and only if the core's statistics slot is
set in `cpu_power_gating_in_idle` and the predicted idle time is at least the state's
target residency as the call leaves it (after the stale-latency refresh); whenever the
predicted idle time is below that target residency it returns false.  The state the call
leaves is the refreshed one exactly when the slot is set and the latency was stale. -/
theorem lp2_is_allowed_iff (pf : Platform) (env : Env) (w : World) (dev : CpuidleDevice)
    (state : CpuidleState) :
    ((tegra11x_lp2_is_allowed pf env w dev state).1 = true ↔
      (cpumask_test_cpu (cpu_number env.is_lp_cluster dev.cpu) w.cpu_power_gating_in_idle = true ∧
       ((tegra11x_lp2_is_allowed pf env w dev state).2.target_residency : Int)
         ≤ env.sleep_length_us)) ∧
    (env.sleep_length_us < ((tegra11x_lp2_is_allowed pf env w dev state).2.target_residency : Int) →
      (tegra11x_lp2_is_allowed pf env w dev state).1 = false) ∧
    (tegra11x_lp2_is_allowed pf env w dev state).2 =
      (if cpumask_test_cpu (cpu_number env.is_lp_cluster dev.cpu) w.cpu_power_gating_in_idle = true ∧
          state.exit_latency ≠
            u32 (w.lp2_exit_latencies.getD (cpu_number env.is_lp_cluster dev.cpu) 0) then
        pf.tegra_lp2_update_target_residency { state with
          exit_latency := u32 (w.lp2_exit_latencies.getD (cpu_number env.is_lp_cluster dev.cpu) 0) }
      else state) := by
  unfold tegra11x_lp2_is_allowed
  generalize w.lp2_exit_latencies.getD (cpu_number env.is_lp_cluster dev.cpu) 0 = lat
  generalize cpumask_test_cpu (cpu_number env.is_lp_cluster dev.cpu)
    w.cpu_power_gating_in_idle = bit
  generalize hst : pf.tegra_lp2_update_target_residency
    { state with exit_latency := u32 lat } = st2
  cases bit
  · simp
  · by_cases hstale : state.exit_latency = u32 lat
    · by_cases hreq : env.sleep_length_us < (state.target_residency : Int)
      · simp [hstale, hreq]
      · simp [hstale, hreq]
        omega
    · by_cases hreq : env.sleep_length_us < (st2.target_residency : Int)
      · simp [hstale, hreq, hst]
      · simp [hstale, hreq, hst]
        omega

/-! ## What the two sleeps change -/

theorem cluster_sleep_latencies (pf : Platform) (env : Env) (w : World) (dev : CpuidleDevice)
    (state : CpuidleState) (request : Int) (multi : Bool) :
    (cluster_sleep pf env w dev state request multi).world.lp2_exit_latencies =
      if env.lp2_last_ret = 0 then
        w.lp2_exit_latencies.set (cpu_number env.is_lp_cluster dev.cpu)
          (adjust_exit_latency (w.lp2_exit_latencies.getD (cpu_number env.is_lp_cluster dev.cpu) 0)
            env.elapsed_us request)
      else w.lp2_exit_latencies := by
  by_cases hret : env.lp2_last_ret = 0 <;> cases multi <;> cases hlp : env.is_lp_cluster <;>
    simp [cluster_sleep, World.emit, learn_exit_latency, tegra11_lp2_restore_affinity,
      tegra_gic_dist_disable, tegra_gic_dist_enable, tegra_gic_restore_affinity, hret, hlp]

theorem cluster_sleep_state (pf : Platform) (env : Env) (w : World) (dev : CpuidleDevice)
    (state : CpuidleState) (request : Int) (multi : Bool) :
    (cluster_sleep pf env w dev state request multi).state =
      if env.lp2_last_ret = 0 then
        { state with exit_latency := u32 (adjust_exit_latency
            (w.lp2_exit_latencies.getD (cpu_number env.is_lp_cluster dev.cpu) 0)
            env.elapsed_us request) }
      else state := by
  by_cases hret : env.lp2_last_ret = 0 <;> cases multi <;> cases hlp : env.is_lp_cluster <;>
    simp [cluster_sleep, World.emit, learn_exit_latency, tegra11_lp2_restore_affinity,
      tegra_gic_dist_disable, tegra_gic_dist_enable, tegra_gic_restore_affinity, hret, hlp]

theorem cluster_sleep_flags (pf : Platform) (env : Env) (w : World) (dev : CpuidleDevice)
    (state : CpuidleState) (request : Int) (multi : Bool) :
    (cluster_sleep pf env w dev state request multi).entered = true ∧
    (cluster_sleep pf env w dev state request multi).sleep_completed
      = decide (env.lp2_last_ret = 0) ∧
    (cluster_sleep pf env w dev state request multi).request = request := by
  simp [cluster_sleep]

theorem cluster_sleep_gic (pf : Platform) (env : Env) (w : World) (dev : CpuidleDevice)
    (state : CpuidleState) (request : Int) (multi : Bool) :
    (cluster_sleep pf env w dev state request multi).world.gic =
      if multi = true then
        { w.gic with dist_enabled := true, affinity := w.gic.saved_affinity }
      else w.gic := by
  by_cases hret : env.lp2_last_ret = 0 <;> cases multi <;> cases hlp : env.is_lp_cluster <;>
    simp [cluster_sleep, World.emit, learn_exit_latency, tegra11_lp2_restore_affinity,
      tegra_gic_dist_disable, tegra_gic_dist_enable, tegra_gic_restore_affinity, hret, hlp]

theorem cluster_sleep_trace (pf : Platform) (env : Env) (w : World) (dev : CpuidleDevice)
    (state : CpuidleState) (request : Int) (multi : Bool) :
    (cluster_sleep pf env w dev state request multi).world.trace =
      w.trace ++ ([Event.cpu_pm_enter, Event.broadcast_enter dev.cpu]
        ++ (if env.is_lp_cluster = true then [] else [Event.dvfs_rail_off])
        ++ [Event.idle_lp2_last
              (s64 (request - w.lp2_exit_latencies.getD (cpu_number env.is_lp_cluster dev.cpu) 0))
              (if env.is_lp_cluster = true then pf.TEGRA_POWER_CLUSTER_PART_NONCPU
                else if cluster_part_flag pf w = true then 1 else 0),
            Event.broadcast_exit dev.cpu]
        ++ (if env.is_lp_cluster = true then [] else [Event.dvfs_rail_on])
        ++ (if multi = true then
              [Event.gic_dist_disable, Event.gic_restore_affinity, Event.gic_dist_enable]
            else [])
        ++ [Event.cpu_pm_exit]) := by
  by_cases hret : env.lp2_last_ret = 0 <;> cases multi <;> cases hlp : env.is_lp_cluster <;>
    simp [cluster_sleep, World.emit, learn_exit_latency, tegra11_lp2_restore_affinity,
      tegra_gic_dist_disable, tegra_gic_dist_enable, tegra_gic_restore_affinity, hret, hlp,
      cluster_part_flag]

theorem core_sleep_latencies (pf : Platform) (env : Env) (w : World) (dev : CpuidleDevice)
    (state : CpuidleState) (request : Int) :
    (core_sleep pf env w dev state request).world.lp2_exit_latencies =
      if (core_sleep pf env w dev state request).sleep_completed = true then
        w.lp2_exit_latencies.set (cpu_number env.is_lp_cluster dev.cpu)
          (adjust_exit_latency (w.lp2_exit_latencies.getD (cpu_number env.is_lp_cluster dev.cpu) 0)
            env.elapsed_us request)
      else w.lp2_exit_latencies := by
  cases hcfg : pf.CONFIG_TEGRA_LP2_CPU_TIMER <;>
    by_cases hrem : env.lp2_timer_remain = 0 <;>
    by_cases herr : env.timer_after.err = 0 <;>
    by_cases htv : env.timer_after.cntp_tval ≤ 0 <;>
    simp [core_sleep, World.emit, learn_exit_latency, hcfg, hrem, herr, htv]

theorem core_sleep_state (pf : Platform) (env : Env) (w : World) (dev : CpuidleDevice)
    (state : CpuidleState) (request : Int) :
    (core_sleep pf env w dev state request).state =
      if (core_sleep pf env w dev state request).sleep_completed = true then
        { state with exit_latency := u32 (adjust_exit_latency
            (w.lp2_exit_latencies.getD (cpu_number env.is_lp_cluster dev.cpu) 0)
            env.elapsed_us request) }
      else state := by
  cases hcfg : pf.CONFIG_TEGRA_LP2_CPU_TIMER <;>
    by_cases hrem : env.lp2_timer_remain = 0 <;>
    by_cases herr : env.timer_after.err = 0 <;>
    by_cases htv : env.timer_after.cntp_tval ≤ 0 <;>
    simp [core_sleep, World.emit, learn_exit_latency, hcfg, hrem, herr, htv]

theorem core_sleep_flags (pf : Platform) (env : Env) (w : World) (dev : CpuidleDevice)
    (state : CpuidleState) (request : Int) :
    (core_sleep pf env w dev state request).entered = true ∧
    (core_sleep pf env w dev state request).request = request ∧
    (core_sleep pf env w dev state request).sleep_completed =
      (if pf.CONFIG_TEGRA_LP2_CPU_TIMER = true then
        (if env.timer_after.err = 0 then decide (env.timer_after.cntp_tval ≤ 0) else false)
       else decide (env.lp2_timer_remain = 0)) := by
  simp [core_sleep]

theorem core_timer_request_latencies (pf : Platform) (env : Env) (w : World)
    (state : CpuidleState) (request : Int) (request2 : Int) (w2 : World)
    (h : core_timer_request pf env w state request = some (request2, w2)) :
    w2.lp2_exit_latencies = w.lp2_exit_latencies := by
  simp only [core_timer_request] at h
  split_ifs at h <;> simp [World.emit] at h <;> (obtain ⟨_, rfl⟩ := h; rfl)

theorem abort_wfi_latency_effect (env : Env) (dev : CpuidleDevice) (w w2 : World)
    (state : CpuidleState) (request : Int)
    (hw : w2.lp2_exit_latencies = w.lp2_exit_latencies) :
    latency_effect env dev w state (abort_wfi w2 state request) := by
  simp [latency_effect, abort_wfi, World.emit, hw]

theorem cluster_sleep_latency_effect (pf : Platform) (env : Env) (w w2 : World)
    (dev : CpuidleDevice) (state : CpuidleState) (request : Int) (multi : Bool)
    (hw : w2.lp2_exit_latencies = w.lp2_exit_latencies) :
    latency_effect env dev w state (cluster_sleep pf env w2 dev state request multi) := by
  unfold latency_effect
  rw [cluster_sleep_latencies, cluster_sleep_state, (cluster_sleep_flags _ _ _ _ _ _ _).2.1,
    (cluster_sleep_flags _ _ _ _ _ _ _).2.2, hw]
  by_cases hret : env.lp2_last_ret = 0 <;> simp [hret, (cluster_sleep_flags _ _ _ _ _ _ _).1]

theorem core_sleep_latency_effect (pf : Platform) (env : Env) (w w2 : World)
    (dev : CpuidleDevice) (state : CpuidleState) (request : Int)
    (hw : w2.lp2_exit_latencies = w.lp2_exit_latencies) :
    latency_effect env dev w state (core_sleep pf env w2 dev state request) := by
  unfold latency_effect
  rw [core_sleep_latencies, core_sleep_state, (core_sleep_flags _ _ _ _ _ _).2.1, hw]
  exact ⟨rfl, rfl, by simp [(core_sleep_flags _ _ _ _ _ _).1]⟩

theorem cluster_power_down_latency_effect (pf : Platform) (env : Env) (w w2 : World)
    (dev : CpuidleDevice) (state : CpuidleState) (request : Int) (r : Result)
    (hw : w2.lp2_exit_latencies = w.lp2_exit_latencies)
    (h : tegra_cpu_cluster_power_down pf env w2 dev state request = some r) :
    latency_effect env dev w state r := by
  simp only [tegra_cpu_cluster_power_down] at h
  split_ifs at h
  all_goals
    injection h with h
    subst h
    first
      | exact abort_wfi_latency_effect env dev w _ state _
          (by simpa [tegra_gic_dist_enable, tegra_gic_dist_disable] using hw)
      | exact cluster_sleep_latency_effect pf env w _ dev state _ _
          (by simpa [tegra_gic_dist_enable, tegra_gic_dist_disable, tegra_gic_disable_affinity,
            World.emit] using hw)

theorem core_power_down_latency_effect (pf : Platform) (env : Env) (w w2 : World)
    (dev : CpuidleDevice) (state : CpuidleState) (request : Int)
    (hw : w2.lp2_exit_latencies = w.lp2_exit_latencies) :
    latency_effect env dev w state (tegra_cpu_core_power_down pf env w2 dev state request) := by
  unfold tegra_cpu_core_power_down
  cases hpre : core_timer_request pf env w2 state request with
  | none => exact abort_wfi_latency_effect env dev w _ state _ hw
  | some p =>
    obtain ⟨request2, w3⟩ := p
    have hw3 : w3.lp2_exit_latencies = w.lp2_exit_latencies :=
      (core_timer_request_latencies pf env w2 state request request2 w3 hpre).trans hw
    simp only []
    split_ifs
    · exact abort_wfi_latency_effect env dev w _ state _ hw3
    · exact core_sleep_latency_effect pf env w _ dev state _ hw3

theorem idle_lp2_latency_effect (pf : Platform) (env : Env) (w : World)
    (dev : CpuidleDevice) (state : CpuidleState) (r : Result)
    (h : tegra11x_idle_lp2 pf env w dev state = some r) :
    latency_effect env dev w state r := by
  simp only [tegra11x_idle_lp2] at h
  split_ifs at h
  · simp only [Option.map_some'] at h
    injection h with h
    subst h
    exact core_power_down_latency_effect pf env w _ dev state _ rfl
  · cases hc : tegra_cpu_cluster_power_down pf env (w.emit (Event.set_cpu_in_lp2 dev.cpu)) dev
        state env.sleep_length_us with
    | none => rw [hc] at h; simp at h
    | some r2 =>
      rw [hc] at h
      simp only [Option.map_some'] at h
      injection h with h
      subst h
      exact cluster_power_down_latency_effect pf env w (w.emit (Event.set_cpu_in_lp2 dev.cpu)) dev state _ r2 rfl hc

/-! ## Latency learning -/

theorem clamp_range (val : Int) : 0 ≤ clamp val 0 10000 ∧ clamp val 0 10000 ≤ 10000 := by
  unfold clamp
  simp only []
  split_ifs <;> omega

theorem adjust_exit_latency_range (old elapsed request : Int) :
    0 ≤ adjust_exit_latency old elapsed request ∧ adjust_exit_latency old elapsed request ≤ 10000 :=
  clamp_range _

theorem tdiv16_bounds (x : Int) (hlo : -2147483648 ≤ x) (hhi : x < 2147483648) :
    -134217728 ≤ Int.tdiv x 16 ∧ Int.tdiv x 16 < 134217728 := by
  rcases le_or_lt 0 x with h | h
  · rw [Int.tdiv_eq_ediv h (by norm_num)]
    omega
  · have hneg : Int.tdiv x 16 = -((-x) / 16) := by
      have h1 : Int.tdiv (-(-x)) 16 = -(Int.tdiv (-x) 16) := Int.neg_tdiv _ _
      rw [neg_neg] at h1
      rw [h1, Int.tdiv_eq_ediv (by omega) (by norm_num)]
    rw [hneg]
    omega

theorem int32_of_range (x : Int) (hlo : -2147483648 ≤ x) (hhi : x < 2147483648) : int32 x = x := by
  unfold int32
  omega

theorem int32_range (x : Int) : -2147483648 ≤ int32 x ∧ int32 x < 2147483648 := by
  unfold int32
  omega


theorem set_adjusted_in_range (w : World) (slot : Nat) (elapsed request : Int)
    (h : latencies_in_range w) :
    (w.lp2_exit_latencies.set slot
        (adjust_exit_latency (w.lp2_exit_latencies.getD slot 0) elapsed request)).length = 5 ∧
    ∀ x ∈ w.lp2_exit_latencies.set slot
        (adjust_exit_latency (w.lp2_exit_latencies.getD slot 0) elapsed request),
      0 ≤ x ∧ x ≤ 10000 := by
  refine ⟨by rw [List.length_set]; exact h.1, ?_⟩
  intro x hx
  rcases List.mem_or_eq_of_mem_set hx with hmem | heq
  · exact h.2 x hmem
  · rw [heq]
    exact adjust_exit_latency_range _ _ _

theorem init_soc_in_range (pf : Platform) (w : World)
    (hseed : 0 ≤ pf.tegra_lp2_exit_latency ∧ pf.tegra_lp2_exit_latency ≤ 10000) :
    latencies_in_range (tegra11x_cpuidle_init_soc pf w) := by
  refine ⟨by simp [tegra11x_cpuidle_init_soc], ?_⟩
  intro x hx
  simp only [tegra11x_cpuidle_init_soc, List.mem_replicate] at hx
  rw [hx.2, int32_of_range _ (by omega) (by omega)]
  exact hseed

theorem run_updates_in_range (us : List LatencyUpdate) :
    ∀ ws : World × CpuidleState, latencies_in_range ws.1 →
      latencies_in_range (run_updates ws us).1 := by
  induction us with
  | nil => intro ws h; exact h
  | cons u us ih =>
    intro ws h
    exact ih _ (set_adjusted_in_range ws.1 u.slot u.elapsed_us u.request h)

theorem idle_lp2_in_range (pf : Platform) (env : Env) (w : World) (dev : CpuidleDevice)
    (state : CpuidleState) (r : Result) (h : tegra11x_idle_lp2 pf env w dev state = some r)
    (hw : latencies_in_range w) : latencies_in_range r.world := by
  have heff := (idle_lp2_latency_effect pf env w dev state r h).1
  unfold latencies_in_range
  rw [heff]
  split_ifs
  · exact set_adjusted_in_range w _ _ _ hw
  · exact hw

theorem run_attempts_in_range (pf : Platform) (attempts : List (Env × CpuidleDevice × CpuidleState)) :
    ∀ w : World, latencies_in_range w → latencies_in_range (run_attempts pf w attempts) := by
  induction attempts with
  | nil => intro w h; exact h
  | cons a rest ih =>
    intro w h
    unfold run_attempts
    cases hr : tegra11x_idle_lp2 pf a.1 w a.2.1 a.2.2 with
    | none => exact h
    | some r => exact ih _ (idle_lp2_in_range pf a.1 w a.2.1 a.2.2 r hr h)

/-- C1: latency clamp invariant.  Provided the seeded default latency
`tegra_lp2_exit_latency` is within [0, 10000], after every sequence of latency updates
(completion branches, with arbitrary slots and arbitrary requested and measured durations),
and likewise after every sequence of whole idle attempts through `tegra11x_idle_lp2`, the
table `lp2_exit_latencies` has its five entries and every one of them is within
[0, 10000]. -/
theorem latency_clamp_invariant (pf : Platform) (w0 : World)
    (hseed : 0 ≤ pf.tegra_lp2_exit_latency ∧ pf.tegra_lp2_exit_latency ≤ 10000) :
    (∀ (state : CpuidleState) (updates : List LatencyUpdate),
      (run_updates (tegra11x_cpuidle_init_soc pf w0, state) updates).1.lp2_exit_latencies.length = 5 ∧
      ∀ x ∈ (run_updates (tegra11x_cpuidle_init_soc pf w0, state) updates).1.lp2_exit_latencies,
        0 ≤ x ∧ x ≤ 10000) ∧
    (∀ attempts : List (Env × CpuidleDevice × CpuidleState),
      (run_attempts pf (tegra11x_cpuidle_init_soc pf w0) attempts).lp2_exit_latencies.length = 5 ∧
      ∀ x ∈ (run_attempts pf (tegra11x_cpuidle_init_soc pf w0) attempts).lp2_exit_latencies,
        0 ≤ x ∧ x ≤ 10000) :=
  ⟨fun state updates =>
      run_updates_in_range updates (tegra11x_cpuidle_init_soc pf w0, state)
        (init_soc_in_range pf w0 hseed),
   fun attempts =>
      run_attempts_in_range pf attempts (tegra11x_cpuidle_init_soc pf w0)
        (init_soc_in_range pf w0 hseed)⟩

/-- Witness of C1: the demo platform, seeded with 2000 us, from the boot world. -/
theorem latency_clamp_invariant_witness :
    ((0 : Int) ≤ demo_platform.tegra_lp2_exit_latency ∧
      demo_platform.tegra_lp2_exit_latency ≤ 10000) ∧
    ((∀ (state : CpuidleState) (updates : List LatencyUpdate),
      (run_updates (tegra11x_cpuidle_init_soc demo_platform (boot_world demo_platform demo_gic),
          state) updates).1.lp2_exit_latencies.length = 5 ∧
      ∀ x ∈ (run_updates (tegra11x_cpuidle_init_soc demo_platform
          (boot_world demo_platform demo_gic), state) updates).1.lp2_exit_latencies,
        0 ≤ x ∧ x ≤ 10000) ∧
    (∀ attempts : List (Env × CpuidleDevice × CpuidleState),
      (run_attempts demo_platform (tegra11x_cpuidle_init_soc demo_platform
          (boot_world demo_platform demo_gic)) attempts).lp2_exit_latencies.length = 5 ∧
      ∀ x ∈ (run_attempts demo_platform (tegra11x_cpuidle_init_soc demo_platform
          (boot_world demo_platform demo_gic)) attempts).lp2_exit_latencies,
        0 ≤ x ∧ x ≤ 10000)) :=
  ⟨by decide, latency_clamp_invariant demo_platform (boot_world demo_platform demo_gic) (by decide)⟩

/-! ## Completion-only learning -/

theorem cluster_power_down_completed (pf : Platform) (env : Env) (w : World)
    (dev : CpuidleDevice) (state : CpuidleState) (request : Int) (r : Result)
    (h : tegra_cpu_cluster_power_down pf env w dev state request = some r)
    (hc : r.sleep_completed = true) : env.lp2_last_ret = 0 := by
  simp only [tegra_cpu_cluster_power_down] at h
  split_ifs at h
  all_goals
    injection h with h
    subst h
    first
      | (simp [abort_wfi] at hc)
      | (rw [(cluster_sleep_flags _ _ _ _ _ _ _).2.1] at hc; simpa using hc)

theorem core_power_down_completed (pf : Platform) (env : Env) (w : World)
    (dev : CpuidleDevice) (state : CpuidleState) (request : Int)
    (hc : (tegra_cpu_core_power_down pf env w dev state request).sleep_completed = true) :
    if pf.CONFIG_TEGRA_LP2_CPU_TIMER = true then
      env.timer_after.err = 0 ∧ env.timer_after.cntp_tval ≤ 0
    else env.lp2_timer_remain = 0 := by
  unfold tegra_cpu_core_power_down at hc
  cases hpre : core_timer_request pf env w state request with
  | none => rw [hpre] at hc; simp [abort_wfi] at hc
  | some p =>
    obtain ⟨request2, w3⟩ := p
    rw [hpre] at hc
    simp only [] at hc
    split_ifs at hc with hab
    · simp [abort_wfi] at hc
    · by_cases hcfg : pf.CONFIG_TEGRA_LP2_CPU_TIMER = true
      · rw [(core_sleep_flags _ _ _ _ _ _).2.2, if_pos hcfg] at hc
        rw [if_pos hcfg]
        split_ifs at hc with herr
        · exact ⟨herr, by simpa using hc⟩
      · rw [(core_sleep_flags _ _ _ _ _ _).2.2, if_neg hcfg] at hc
        rw [if_neg hcfg]
        simpa using hc

/-- C4: completion-only learning.  For every attempt through `tegra11x_idle_lp2`, in
either variant: an attempt that aborts to WFI (returns false) is not a completion; a
cluster-gate sleep cut short by an interrupt (non-zero return of `tegra_idle_lp2_last`) and
a single-core sleep whose wake timer did not run out are not completions; and whenever the
attempt did not run to completion, every entry of `lp2_exit_latencies` and the state's
`exit_latency` are the same after the attempt as before it. -/
theorem completion_only_learning (pf : Platform) (env : Env) (w : World) (dev : CpuidleDevice)
    (state : CpuidleState) (r : Result) (h : tegra11x_idle_lp2 pf env w dev state = some r) :
    (r.entered = false → r.sleep_completed = false) ∧
    (power_gating_cpu_only pf env w dev = false → env.lp2_last_ret ≠ 0 →
      r.sleep_completed = false) ∧
    (power_gating_cpu_only pf env w dev = true →
      ¬ (if pf.CONFIG_TEGRA_LP2_CPU_TIMER = true then
          env.timer_after.err = 0 ∧ env.timer_after.cntp_tval ≤ 0
        else env.lp2_timer_remain = 0) →
      r.sleep_completed = false) ∧
    (r.sleep_completed = false →
      r.world.lp2_exit_latencies = w.lp2_exit_latencies ∧
      r.state.exit_latency = state.exit_latency) := by
  have heff := idle_lp2_latency_effect pf env w dev state r h
  refine ⟨heff.2.2, ?_, ?_, ?_⟩
  · intro hgate hret
    simp only [tegra11x_idle_lp2, hgate] at h
    cases hc : tegra_cpu_cluster_power_down pf env (w.emit (Event.set_cpu_in_lp2 dev.cpu)) dev
        state env.sleep_length_us with
    | none => rw [hc] at h; simp at h
    | some r2 =>
      rw [hc] at h
      simp only [Bool.false_eq_true, if_false, Option.map_some'] at h
      injection h with h
      subst h
      by_contra hcomp
      have hcomp2 : r2.sleep_completed = true := by
        simpa [clear_cpu_in_lp2] using hcomp
      exact hret (cluster_power_down_completed pf env _ dev state _ r2 hc hcomp2)
  · intro hgate hnot
    simp only [tegra11x_idle_lp2, hgate, if_true, Option.map_some'] at h
    injection h with h
    subst h
    by_contra hcomp
    have hcomp2 : (tegra_cpu_core_power_down pf env (w.emit (Event.set_cpu_in_lp2 dev.cpu)) dev
        state env.sleep_length_us).sleep_completed = true := by
      simpa [clear_cpu_in_lp2] using hcomp
    exact hnot (core_power_down_completed pf env _ dev state _ hcomp2)
  · intro hnc
    have h1 := heff.1
    have h2 := heff.2.1
    rw [hnc] at h1 h2
    simp only [Bool.false_eq_true, if_false] at h1 h2
    exact ⟨h1, by rw [h2]⟩

/-- Witness of C4: core 0 alone on the fast cluster takes the cluster gate and is woken by
an interrupt after 500 us; the latency table and the exit latency are unchanged. -/
theorem completion_only_learning_witness :
    tegra11x_idle_lp2 demo_platform demo_env_interrupted demo_world_cluster cpu0 demo_state
      = some demo_interrupted_result ∧
    ((demo_interrupted_result.entered = false → demo_interrupted_result.sleep_completed = false) ∧
    (power_gating_cpu_only demo_platform demo_env_interrupted demo_world_cluster cpu0 = false →
      demo_env_interrupted.lp2_last_ret ≠ 0 → demo_interrupted_result.sleep_completed = false) ∧
    (power_gating_cpu_only demo_platform demo_env_interrupted demo_world_cluster cpu0 = true →
      ¬ (if demo_platform.CONFIG_TEGRA_LP2_CPU_TIMER = true then
          demo_env_interrupted.timer_after.err = 0 ∧ demo_env_interrupted.timer_after.cntp_tval ≤ 0
        else demo_env_interrupted.lp2_timer_remain = 0) →
      demo_interrupted_result.sleep_completed = false) ∧
    (demo_interrupted_result.sleep_completed = false →
      demo_interrupted_result.world.lp2_exit_latencies = demo_world_cluster.lp2_exit_latencies ∧
      demo_interrupted_result.state.exit_latency = demo_state.exit_latency)) :=
  ⟨by rfl, completion_only_learning demo_platform demo_env_interrupted demo_world_cluster cpu0
    demo_state demo_interrupted_result (by rfl)⟩

theorem u32_of_range (x : Int) (hlo : 0 ≤ x) (hhi : x < 4294967296) : ((u32 x : Nat) : Int) = x := by
  unfold u32
  rw [Int.emod_eq_of_lt hlo hhi]
  exact Int.toNat_of_nonneg hlo

/-- C5 (amended): after an attempt through `tegra11x_idle_lp2` that ran to completion, in
either variant, with `dev->cpu < 4`, the latency stored for the core's slot equals
`clamp(old + offset/16, 0, 10000)` where `offset` is the difference actual minus requested
microseconds truncated to a 32-bit `int`, the sum is an `int`, and the division truncates
toward zero; the state's `exit_latency` holds the same value.  Whenever the old latency is
within [0, 10000] and actual minus requested fits a 32-bit `int`, this is
`clamp(old + (actual - requested)/16, 0, 10000)`. -/
theorem completed_latency_formula (pf : Platform) (env : Env) (w : World) (dev : CpuidleDevice)
    (state : CpuidleState) (r : Result)
    (h : tegra11x_idle_lp2 pf env w dev state = some r)
    (hc : r.sleep_completed = true) (hcpu : dev.cpu < 4) (hlen : w.lp2_exit_latencies.length = 5) :
    r.world.lp2_exit_latencies.getD (cpu_number env.is_lp_cluster dev.cpu) 0 =
      clamp (int32 (w.lp2_exit_latencies.getD (cpu_number env.is_lp_cluster dev.cpu) 0
        + Int.tdiv (int32 (env.elapsed_us - r.request)) 16)) 0 10000 ∧
    (r.state.exit_latency : Int) =
      r.world.lp2_exit_latencies.getD (cpu_number env.is_lp_cluster dev.cpu) 0 ∧
    (0 ≤ w.lp2_exit_latencies.getD (cpu_number env.is_lp_cluster dev.cpu) 0 ∧
      w.lp2_exit_latencies.getD (cpu_number env.is_lp_cluster dev.cpu) 0 ≤ 10000 →
     -2147483648 ≤ env.elapsed_us - r.request ∧ env.elapsed_us - r.request < 2147483648 →
      r.world.lp2_exit_latencies.getD (cpu_number env.is_lp_cluster dev.cpu) 0 =
        clamp (w.lp2_exit_latencies.getD (cpu_number env.is_lp_cluster dev.cpu) 0
          + Int.tdiv (env.elapsed_us - r.request) 16) 0 10000) := by
  have heff := idle_lp2_latency_effect pf env w dev state r h
  have h1 := heff.1
  have h2 := heff.2.1
  rw [if_pos hc] at h1 h2
  have hslot : cpu_number env.is_lp_cluster dev.cpu < w.lp2_exit_latencies.length := by
    rw [hlen]
    unfold cpu_number
    split <;> omega
  have hget : r.world.lp2_exit_latencies.getD (cpu_number env.is_lp_cluster dev.cpu) 0 =
      adjust_exit_latency (w.lp2_exit_latencies.getD (cpu_number env.is_lp_cluster dev.cpu) 0)
        env.elapsed_us r.request := by
    rw [h1]
    simp [List.getD, hslot]
  refine ⟨hget, ?_, ?_⟩
  · rw [h2, hget]
    have hr := adjust_exit_latency_range
      (w.lp2_exit_latencies.getD (cpu_number env.is_lp_cluster dev.cpu) 0) env.elapsed_us r.request
    exact u32_of_range _ hr.1 (by omega)
  · intro hold hoff
    rw [hget]
    unfold adjust_exit_latency
    simp only []
    rw [int32_of_range _ hoff.1 hoff.2]
    have hb := tdiv16_bounds _ hoff.1 hoff.2
    rw [int32_of_range _ (by omega) (by omega)]

/-- Witness of C5 (amended): old latency 200, requested 80000 us, measured 78000 us; the
offset is -2000 and the stored latency is 200 - 125 = 75. -/
theorem completed_latency_formula_witness :
    (tegra11x_idle_lp2 demo_platform demo_env demo_world_cluster cpu0 demo_state
      = some demo_completed_result ∧
     demo_completed_result.sleep_completed = true ∧ cpu0.cpu < 4 ∧
     demo_world_cluster.lp2_exit_latencies.length = 5) ∧
    (demo_world_cluster.lp2_exit_latencies = [200, 200, 200, 200, 200] ∧
     demo_completed_result.request = 80000 ∧ demo_env.elapsed_us = 78000 ∧
     demo_completed_result.world.lp2_exit_latencies = [75, 200, 200, 200, 200] ∧
     demo_completed_result.state.exit_latency = 75) ∧
    (demo_completed_result.world.lp2_exit_latencies.getD
        (cpu_number demo_env.is_lp_cluster cpu0.cpu) 0 =
      clamp (int32 (demo_world_cluster.lp2_exit_latencies.getD
        (cpu_number demo_env.is_lp_cluster cpu0.cpu) 0
        + Int.tdiv (int32 (demo_env.elapsed_us - demo_completed_result.request)) 16)) 0 10000 ∧
    (demo_completed_result.state.exit_latency : Int) =
      demo_completed_result.world.lp2_exit_latencies.getD
        (cpu_number demo_env.is_lp_cluster cpu0.cpu) 0 ∧
    (0 ≤ demo_world_cluster.lp2_exit_latencies.getD (cpu_number demo_env.is_lp_cluster cpu0.cpu) 0 ∧
      demo_world_cluster.lp2_exit_latencies.getD (cpu_number demo_env.is_lp_cluster cpu0.cpu) 0
        ≤ 10000 →
     -2147483648 ≤ demo_env.elapsed_us - demo_completed_result.request ∧
      demo_env.elapsed_us - demo_completed_result.request < 2147483648 →
      demo_completed_result.world.lp2_exit_latencies.getD
          (cpu_number demo_env.is_lp_cluster cpu0.cpu) 0 =
        clamp (demo_world_cluster.lp2_exit_latencies.getD
          (cpu_number demo_env.is_lp_cluster cpu0.cpu) 0
          + Int.tdiv (demo_env.elapsed_us - demo_completed_result.request) 16) 0 10000)) :=
  ⟨⟨by rfl, by rfl, by decide, by rfl⟩, ⟨by rfl, by rfl, by rfl, by rfl, by rfl⟩,
   completed_latency_formula demo_platform demo_env demo_world_cluster cpu0 demo_state
    demo_completed_result (by rfl) (by rfl) (by decide) (by rfl)⟩

/-- C5 as stated fails: core 0, old latency 200, a request of 2^32 + 80000 us and a
completed sleep measured at 80160 us.  The `int` offset is 160, so the stored latency is
210, while `clamp(200 + (80160 - 4295047296)/16, 0, 10000)` is 0. -/
theorem completed_latency_counterexample :
    tegra11x_idle_lp2 demo_platform demo_env_long demo_world_cluster cpu0 demo_state
      = some demo_long_result ∧
    demo_long_result.entered = true ∧
    demo_long_result.sleep_completed = true ∧
    demo_long_result.request = 4295047296 ∧
    demo_env_long.elapsed_us = 80160 ∧
    demo_world_cluster.lp2_exit_latencies.getD 0 0 = 200 ∧
    demo_long_result.world.lp2_exit_latencies.getD 0 0 = 210 ∧
    demo_long_result.state.exit_latency = 210 ∧
    clamp (200 + Int.tdiv (80160 - 4295047296) 16) 0 10000 = 0 ∧
    demo_long_result.world.lp2_exit_latencies.getD 0 0 ≠
      clamp (demo_world_cluster.lp2_exit_latencies.getD 0 0
        + Int.tdiv (demo_env_long.elapsed_us - demo_long_result.request) 16) 0 10000 := by
  refine ⟨by rfl, by rfl, by rfl, by rfl, by rfl, by rfl, by rfl, by rfl, by rfl, ?_⟩
  decide

/-! ## Gate selection -/

/-- What lines 424-444 compute outside LP cluster mode, with at least the running CPU
online: the single-core gate is taken exactly when the local `cpu_gating_only` is true, or
`dev->cpu` is not 0, or more than one CPU is online, or `tegra_rail_off_is_allowed` is
false; and `cpu_gating_only` is true exactly when the shifted mode is 0 modulo 2^32 (or the
mask is 0), whatever the partition bits are. -/
theorem fast_cluster_gate_as_coded (pf : Platform) (env : Env) (w : World) (dev : CpuidleDevice)
    (state : CpuidleState) (hlp : env.is_lp_cluster = false) (honline : 0 < env.num_online_cpus) :
    (power_gating_cpu_only pf env w dev = true ↔
      (cpu_gating_only pf w = true ∨ dev.cpu ≠ 0 ∨ 1 < env.num_online_cpus ∨
        tegra_rail_off_is_allowed env.rail = false)) ∧
    tegra11x_idle_lp2 pf env w dev state =
      Option.map (clear_cpu_in_lp2 dev)
        (if cpu_gating_only pf w = true ∨ dev.cpu ≠ 0 ∨ 1 < env.num_online_cpus ∨
            tegra_rail_off_is_allowed env.rail = false then
          some (tegra_cpu_core_power_down pf env (w.emit (Event.set_cpu_in_lp2 dev.cpu)) dev state
            env.sleep_length_us)
        else
          tegra_cpu_cluster_power_down pf env (w.emit (Event.set_cpu_in_lp2 dev.cpu)) dev state
            env.sleep_length_us) ∧
    (cpu_gating_only pf w = true ↔
      ((w.fast_cluster_power_down_mode <<< pf.TEGRA_POWER_CLUSTER_PART_SHIFT) % 4294967296 = 0 ∨
        pf.TEGRA_POWER_CLUSTER_PART_MASK = 0)) := by
  have hiff : power_gating_cpu_only pf env w dev = true ↔
      (cpu_gating_only pf w = true ∨ dev.cpu ≠ 0 ∨ 1 < env.num_online_cpus ∨
        tegra_rail_off_is_allowed env.rail = false) := by
    unfold power_gating_cpu_only
    rw [hlp]
    cases hg : cpu_gating_only pf w <;> cases hr : tegra_rail_off_is_allowed env.rail <;>
      by_cases hc : dev.cpu = 0 <;> by_cases hn : env.num_online_cpus = 1 <;>
      simp [hc, hn]
    all_goals omega
  refine ⟨hiff, ?_, ?_⟩
  · unfold tegra11x_idle_lp2
    by_cases hp : power_gating_cpu_only pf env w dev = true
    · simp only [hp, if_true, if_pos (hiff.mp hp)]
    · have hn : ¬ (cpu_gating_only pf w = true ∨ dev.cpu ≠ 0 ∨ 1 < env.num_online_cpus ∨
          tegra_rail_off_is_allowed env.rail = false) := fun hd => hp (hiff.mpr hd)
      simp only [hp, if_neg hn]
      rfl
  · unfold cpu_gating_only cluster_part_flag
    by_cases h1 : (w.fast_cluster_power_down_mode <<< pf.TEGRA_POWER_CLUSTER_PART_SHIFT)
        % 4294967296 = 0 <;>
      by_cases h2 : pf.TEGRA_POWER_CLUSTER_PART_MASK = 0 <;> simp [h1, h2]

/-- C3 fails on the code at `fast_cluster_power_down_mode = 4`: outside LP cluster mode,
with core 0 the only CPU online and rail-off allowed.  No cluster partition bit is selected
(`(4 << 24) & TEGRA_POWER_CLUSTER_PART_MASK = 0`), so cluster power gating is disabled by
configuration and the single-core gate is due; but the logical `&&` of lines 424-426 makes
`cpu_gating_only` false, and `tegra11x_idle_lp2` takes the cluster gate: it calls
`tegra_cpu_cluster_power_down`, turns the rail off and passes the flag 1 to
`tegra_idle_lp2_last`, where the LP-cluster branch (line 270) passes a partition bit. -/
theorem idle_lp2_cluster_gate_without_partition :
    demo_world_mode4.fast_cluster_power_down_mode = 4 ∧
    cluster_part_bits demo_platform demo_world_mode4 = 0 ∧
    demo_env.is_lp_cluster = false ∧ cpu0.cpu = 0 ∧ demo_env.num_online_cpus = 1 ∧
    tegra_rail_off_is_allowed demo_env.rail = true ∧
    cpu_gating_only demo_platform demo_world_mode4 = false ∧
    power_gating_cpu_only demo_platform demo_env demo_world_mode4 cpu0 = false ∧
    tegra11x_idle_lp2 demo_platform demo_env demo_world_mode4 cpu0 demo_state =
      Option.map (clear_cpu_in_lp2 cpu0) (tegra_cpu_cluster_power_down demo_platform demo_env
        (demo_world_mode4.emit (Event.set_cpu_in_lp2 0)) cpu0 demo_state 80000) ∧
    (tegra11x_idle_lp2 demo_platform demo_env demo_world_mode4 cpu0 demo_state).map
        (fun r => r.world.trace) =
      some [Event.set_cpu_in_lp2 0, Event.cpu_pm_enter, Event.broadcast_enter 0,
        Event.dvfs_rail_off, Event.idle_lp2_last 79800 1, Event.broadcast_exit 0,
        Event.dvfs_rail_on, Event.cpu_pm_exit, Event.clear_cpu_in_lp2 0] ∧
    tegra11x_idle_lp2 demo_platform demo_env demo_world_mode4 cpu0 demo_state ≠
      some (clear_cpu_in_lp2 cpu0 (tegra_cpu_core_power_down demo_platform demo_env
        (demo_world_mode4.emit (Event.set_cpu_in_lp2 0)) cpu0 demo_state 80000)) := by
  refine ⟨by rfl, by decide, by rfl, by rfl, by rfl, by rfl, by rfl, by rfl, by rfl, by rfl, ?_⟩
  decide

/-- The two readings of the configuration agree for the modes 0 to 3: for these the local
`cpu_gating_only` is true exactly when no partition bit is selected. -/
theorem cpu_gating_only_agrees_below_four :
    ∀ mode : Fin 4,
      (cpu_gating_only demo_platform { demo_world with fast_cluster_power_down_mode := mode.val }
        = true ↔
       cluster_part_bits demo_platform { demo_world with fast_cluster_power_down_mode := mode.val }
        = 0) := by
  decide

/-- C9 (amended): when the system is already running in LP cluster mode,
`tegra11x_idle_lp2` chooses the cluster-level gate `tegra_cpu_cluster_power_down` exactly
when `slow_cluster_power_gating_noncpu` is set, and the single-core gate
`tegra_cpu_core_power_down` otherwise, for every value of `fast_cluster_power_down_mode`,
of `dev->cpu`, of the online count and of the rail registers. -/
theorem idle_lp2_lp_cluster_gate (pf : Platform) (env : Env) (w : World) (dev : CpuidleDevice)
    (state : CpuidleState) (hlp : env.is_lp_cluster = true) :
    power_gating_cpu_only pf env w dev = !w.slow_cluster_power_gating_noncpu ∧
    tegra11x_idle_lp2 pf env w dev state =
      Option.map (clear_cpu_in_lp2 dev)
        (if w.slow_cluster_power_gating_noncpu = true then
          tegra_cpu_cluster_power_down pf env (w.emit (Event.set_cpu_in_lp2 dev.cpu)) dev state
            env.sleep_length_us
        else
          some (tegra_cpu_core_power_down pf env (w.emit (Event.set_cpu_in_lp2 dev.cpu)) dev state
            env.sleep_length_us)) := by
  have hp : power_gating_cpu_only pf env w dev = !w.slow_cluster_power_gating_noncpu := by
    unfold power_gating_cpu_only
    rw [hlp]
    cases w.slow_cluster_power_gating_noncpu <;> simp
  refine ⟨hp, ?_⟩
  unfold tegra11x_idle_lp2
  rw [hp]
  cases w.slow_cluster_power_gating_noncpu <;> simp

/-- Witness of C9 (amended): LP cluster mode with `slow_cluster_power_gating_noncpu` at its
default. -/
theorem idle_lp2_lp_cluster_gate_witness :
    demo_env_lp.is_lp_cluster = true ∧
    (power_gating_cpu_only demo_platform demo_env_lp demo_world cpu0 =
      !demo_world.slow_cluster_power_gating_noncpu ∧
    tegra11x_idle_lp2 demo_platform demo_env_lp demo_world cpu0 demo_state =
      Option.map (clear_cpu_in_lp2 cpu0)
        (if demo_world.slow_cluster_power_gating_noncpu = true then
          tegra_cpu_cluster_power_down demo_platform demo_env_lp
            (demo_world.emit (Event.set_cpu_in_lp2 cpu0.cpu)) cpu0 demo_state
            demo_env_lp.sleep_length_us
        else
          some (tegra_cpu_core_power_down demo_platform demo_env_lp
            (demo_world.emit (Event.set_cpu_in_lp2 cpu0.cpu)) cpu0 demo_state
            demo_env_lp.sleep_length_us))) :=
  ⟨by rfl, idle_lp2_lp_cluster_gate demo_platform demo_env_lp demo_world cpu0 demo_state (by rfl)⟩

/-- C9 as stated fails: in LP cluster mode with `slow_cluster_power_gating_noncpu` at its
default (false), `tegra11x_idle_lp2` calls `tegra_cpu_core_power_down`: the core is
suspended through `cpu_suspend` and `tegra_idle_lp2_last` is never called. -/
theorem idle_lp2_lp_cluster_gate_counterexample :
    demo_env_lp.is_lp_cluster = true ∧
    demo_world.slow_cluster_power_gating_noncpu = false ∧
    power_gating_cpu_only demo_platform demo_env_lp demo_world cpu0 = true ∧
    tegra11x_idle_lp2 demo_platform demo_env_lp demo_world cpu0 demo_state =
      some (clear_cpu_in_lp2 cpu0 (tegra_cpu_core_power_down demo_platform demo_env_lp
        (demo_world.emit (Event.set_cpu_in_lp2 0)) cpu0 demo_state 80000)) ∧
    (tegra11x_idle_lp2 demo_platform demo_env_lp demo_world cpu0 demo_state).map
        (fun r => r.world.trace) =
      some [Event.set_cpu_in_lp2 0, Event.cpu_pm_enter, Event.broadcast_enter 0,
        Event.arch_timer_suspend, Event.lp2_set_trigger 49800,
        Event.wake_by_time_store 0 5050000, Event.cpu_suspend, Event.lp2_set_trigger 0,
        Event.arch_timer_resume, Event.broadcast_exit 0, Event.cpu_pm_exit,
        Event.clear_cpu_in_lp2 0] ∧
    tegra11x_idle_lp2 demo_platform demo_env_lp demo_world cpu0 demo_state ≠
      Option.map (clear_cpu_in_lp2 cpu0) (tegra_cpu_cluster_power_down demo_platform demo_env_lp
        (demo_world.emit (Event.set_cpu_in_lp2 0)) cpu0 demo_state 80000) := by
  refine ⟨by rfl, by rfl, by rfl, by rfl, by rfl, ?_⟩
  decide

/-! ## The single-core gate and the countdown timer -/

theorem bnot32_mask_ne_zero (ctl : Nat) : bnot32 (ctl &&& ARCH_TIMER_CTRL_IT_MASK) ≠ 0 := by
  have h : ctl &&& ARCH_TIMER_CTRL_IT_MASK ≤ 2 := Nat.and_le_right
  unfold bnot32
  omega

/-- C8 (amended): for every single-core gate attempt in which the countdown timer is read
successfully as enabled and already expired (`cntp_tval <= 0`), the attempt aborts to WFI:
`tegra_cpu_core_power_down` returns false, the only call it makes is `tegra_cpu_wfi`, and
nothing else changes (no notifier context, no wake deadline, no suspend, no learning).
When the timer is read as disabled the attempt is not aborted for that: it goes on with
the caller's request, and aborts exactly when the wake timer is not ready, the request is
below the target residency, there is no tick-sched, or no-tick mode is inactive. -/
theorem core_power_down_timer_abort (pf : Platform) (env : Env) (w : World) (dev : CpuidleDevice)
    (state : CpuidleState) (request : Int) :
    (env.timer_before.err = 0 →
      env.timer_before.cntp_ctl &&& ARCH_TIMER_CTRL_ENABLE ≠ 0 →
      env.timer_before.cntp_tval ≤ 0 →
      tegra_cpu_core_power_down pf env w dev state request =
        { entered := false, sleep_completed := false, request := request,
          world := { w with trace := w.trace ++ [Event.cpu_wfi] }, state := state }) ∧
    (env.timer_before.cntp_ctl &&& ARCH_TIMER_CTRL_ENABLE = 0 →
      tegra_cpu_core_power_down pf env w dev state request =
        if env.lp2_timer_ready = false ∨ request < (state.target_residency : Int) ∨
            env.tick_sched_present = false ∨ env.nohz_mode_inactive = true then
          abort_wfi w state request
        else core_sleep pf env w dev state request) := by
  constructor
  · intro herr hen hexp
    have hpre : core_timer_request pf env w state request = none := by
      simp only [core_timer_request]
      rw [if_pos herr, if_pos ⟨hen, bnot32_mask_ne_zero _⟩, if_pos hexp]
    unfold tegra_cpu_core_power_down
    rw [hpre]
    rfl
  · intro hdis
    have hpre : core_timer_request pf env w state request = some (request, w) := by
      simp only [core_timer_request]
      split_ifs with h1 h2 <;> first | rfl | exact absurd hdis h2.1
    unfold tegra_cpu_core_power_down
    rw [hpre]

/-- Witness of C8 (amended): core 1 finds its countdown timer enabled and expired. -/
theorem core_power_down_timer_abort_witness :
    (demo_env_timer_expired.timer_before.err = 0 ∧
     demo_env_timer_expired.timer_before.cntp_ctl &&& ARCH_TIMER_CTRL_ENABLE ≠ 0 ∧
     demo_env_timer_expired.timer_before.cntp_tval ≤ 0) ∧
    tegra_cpu_core_power_down demo_platform demo_env_timer_expired demo_world cpu1 demo_state 50000 =
      { entered := false, sleep_completed := false, request := 50000,
        world := { demo_world with trace := demo_world.trace ++ [Event.cpu_wfi] },
        state := demo_state } :=
  ⟨⟨by rfl, by decide, by decide⟩,
   (core_power_down_timer_abort demo_platform demo_env_timer_expired demo_world cpu1 demo_state
      50000).1 (by rfl) (by decide) (by decide)⟩

/-- C8 as stated fails: core 1 reads its countdown timer as disabled, and with a 50 ms
request, the wake timer ready and no-tick mode active the attempt is not aborted: the
function returns true after entering the notifier context, publishing the wake deadline
5050000 and suspending the core. -/
theorem core_power_down_disabled_timer_counterexample :
    demo_env_timer_off.timer_before.err = 0 ∧
    demo_env_timer_off.timer_before.cntp_ctl &&& ARCH_TIMER_CTRL_ENABLE = 0 ∧
    (tegra_cpu_core_power_down demo_platform demo_env_timer_off demo_world cpu1 demo_state
      50000).entered = true ∧
    (tegra_cpu_core_power_down demo_platform demo_env_timer_off demo_world cpu1 demo_state
      50000).world.trace =
      [Event.cpu_pm_enter, Event.broadcast_enter 1, Event.arch_timer_suspend,
        Event.lp2_set_trigger 49800, Event.wake_by_time_store 1 5050000, Event.cpu_suspend,
        Event.lp2_set_trigger 0, Event.arch_timer_resume, Event.broadcast_exit 1,
        Event.cpu_pm_exit] :=
  ⟨by rfl, by decide, by rfl, by rfl⟩

/-! ## The multi-core path of the cluster gate -/

theorem cluster_power_down_multi (pf : Platform) (env : Env) (w : World) (dev : CpuidleDevice)
    (state : CpuidleState) (request : Int)
    (hreq : (state.target_residency : Int) ≤ request)
    (hlp : env.is_lp_cluster = false) (hon : 1 < env.num_online_cpus_recheck) :
    tegra_cpu_cluster_power_down pf env w dev state request =
      if tegra_rail_off_is_allowed env.rail_recheck = false then
        some (abort_wfi (tegra_gic_dist_enable (tegra_gic_dist_disable w)) state request)
      else if collective_wake_time env.entry_time_us request w.tegra_cpu_wake_by_time < 0 then none
      else if adjusted_request env.entry_time_us request w.tegra_cpu_wake_by_time
          < (state.target_residency : Int) then
        some (abort_wfi (tegra_gic_dist_enable (tegra_gic_dist_disable w)) state
          (adjusted_request env.entry_time_us request w.tegra_cpu_wake_by_time))
      else
        some (cluster_sleep pf env
          (tegra_gic_dist_enable (tegra_gic_disable_affinity
            ((tegra_gic_dist_disable w).emit Event.lp2_timer_cancel_secondary)))
          dev state (adjusted_request env.entry_time_us request w.tegra_cpu_wake_by_time) true) := by
  have hwb : (tegra_gic_dist_disable w).tegra_cpu_wake_by_time = w.tegra_cpu_wake_by_time := rfl
  simp only [tegra_cpu_cluster_power_down]
  rw [if_neg (by omega), hwb]
  have hm : (!env.is_lp_cluster && decide (env.num_online_cpus_recheck > 1)) = true := by
    simp [hlp, hon]
  rw [if_pos hm]
  cases hr : tegra_rail_off_is_allowed env.rail_recheck <;> simp

theorem collective_wake_time_unfold (e r t0 t1 t2 t3 : Int) :
    collective_wake_time e r [t0, t1, t2, t3] = min (min (min (s64 (e + r)) t1) t2) t3 := rfl

theorem s64_range (x : Int) : -9223372036854775808 ≤ s64 x ∧ s64 x ≤ 9223372036854775807 := by
  unfold s64
  omega

theorem s64_of_range (x : Int) (hlo : -9223372036854775808 ≤ x) (hhi : x ≤ 9223372036854775807) :
    s64 x = x := by
  unfold s64
  omega

theorem s64_sub_cancel (e r : Int) (hlo : -9223372036854775808 ≤ r)
    (hhi : r ≤ 9223372036854775807) : s64 (s64 (e + r) - e) = r := by
  unfold s64
  omega

/-- C6: in the multi-core path of `tegra_cpu_cluster_power_down` (fast cluster, more than
one CPU online, request at least the target residency, rail-off still allowed), the
collective wake time equals the minimum of the candidate wake time `entry + request` (an
`s64` sum) and the deadlines `tegra_cpu_wake_by_time[i]` of the peers `i = 1..3`, and the
request is replaced by that wake time minus the entry time.  Hence the wake time is never
later than any published peer deadline nor than the candidate wake time, and when no peer
has a deadline (all three slots `LLONG_MAX`) the request is unchanged.  With non-negative
clock values and no overflow of `entry + request` the `s64` arithmetic is exact. -/
theorem collective_wake_time_is_min (pf : Platform) (env : Env) (w : World) (dev : CpuidleDevice)
    (state : CpuidleState) (request : Int) (res : Result) (t0 t1 t2 t3 : Int)
    (hwb : w.tegra_cpu_wake_by_time = [t0, t1, t2, t3])
    (hlp : env.is_lp_cluster = false) (hon : 1 < env.num_online_cpus_recheck)
    (hreq : (state.target_residency : Int) ≤ request) (hmax : request ≤ LLONG_MAX)
    (hrail : tegra_rail_off_is_allowed env.rail_recheck = true)
    (hres : tegra_cpu_cluster_power_down pf env w dev state request = some res) :
    collective_wake_time env.entry_time_us request w.tegra_cpu_wake_by_time =
      min (s64 (env.entry_time_us + request)) (min t1 (min t2 t3)) ∧
    res.request =
      s64 (collective_wake_time env.entry_time_us request w.tegra_cpu_wake_by_time
        - env.entry_time_us) ∧
    collective_wake_time env.entry_time_us request w.tegra_cpu_wake_by_time ≤ t1 ∧
    collective_wake_time env.entry_time_us request w.tegra_cpu_wake_by_time ≤ t2 ∧
    collective_wake_time env.entry_time_us request w.tegra_cpu_wake_by_time ≤ t3 ∧
    collective_wake_time env.entry_time_us request w.tegra_cpu_wake_by_time
      ≤ s64 (env.entry_time_us + request) ∧
    (t1 = LLONG_MAX ∧ t2 = LLONG_MAX ∧ t3 = LLONG_MAX → res.request = request) ∧
    (0 ≤ env.entry_time_us ∧ env.entry_time_us + request ≤ LLONG_MAX ∧
        0 ≤ t1 ∧ 0 ≤ t2 ∧ 0 ≤ t3 →
      collective_wake_time env.entry_time_us request w.tegra_cpu_wake_by_time =
        min (env.entry_time_us + request) (min t1 (min t2 t3)) ∧
      res.request =
        min (env.entry_time_us + request) (min t1 (min t2 t3)) - env.entry_time_us) := by
  have hreq0 : 0 ≤ request := le_trans (Int.ofNat_nonneg _) hreq
  have hresreq : res.request =
      adjusted_request env.entry_time_us request w.tegra_cpu_wake_by_time := by
    rw [cluster_power_down_multi pf env w dev state request hreq hlp hon] at hres
    rw [if_neg (by simp [hrail])] at hres
    split_ifs at hres
    · injection hres with hres
      subst hres
      rfl
    · injection hres with hres
      subst hres
      exact (cluster_sleep_flags _ _ _ _ _ _ _).2.2
  have hcwt := collective_wake_time_unfold env.entry_time_us request t0 t1 t2 t3
  rw [← hwb] at hcwt
  have hs := s64_range (env.entry_time_us + request)
  unfold LLONG_MAX at hmax
  refine ⟨by rw [hcwt]; omega, by rw [hresreq]; rfl, by rw [hcwt]; omega, by rw [hcwt]; omega,
    by rw [hcwt]; omega, by rw [hcwt]; omega, ?_, ?_⟩
  · rintro ⟨h1, h2, h3⟩
    rw [hresreq]
    unfold adjusted_request
    rw [hcwt, h1, h2, h3]
    unfold LLONG_MAX
    have hmin : min (min (min (s64 (env.entry_time_us + request)) 9223372036854775807)
        9223372036854775807) 9223372036854775807 = s64 (env.entry_time_us + request) := by
      omega
    rw [hmin]
    exact s64_sub_cancel _ _ (by omega) hmax
  · rintro ⟨he, hsum, h1, h2, h3⟩
    unfold LLONG_MAX at hsum
    have hs2 : s64 (env.entry_time_us + request) = env.entry_time_us + request :=
      s64_of_range _ (by omega) hsum
    have hc2 : collective_wake_time env.entry_time_us request w.tegra_cpu_wake_by_time =
        min (env.entry_time_us + request) (min t1 (min t2 t3)) := by
      rw [hcwt, hs2]
      omega
    refine ⟨hc2, ?_⟩
    rw [hresreq]
    unfold adjusted_request
    rw [hc2]
    exact s64_of_range _ (by omega) (by omega)

theorem abort_after_dist_cycle_events (w : World) (state : CpuidleState) (request : Int) :
    new_events w (abort_wfi (tegra_gic_dist_enable (tegra_gic_dist_disable w)) state request) =
      [Event.gic_dist_disable, Event.gic_dist_enable, Event.cpu_wfi] := by
  simp [new_events, abort_wfi, World.emit, tegra_gic_dist_enable, tegra_gic_dist_disable]

theorem multi_sleep_events (pf : Platform) (env : Env) (w : World) (dev : CpuidleDevice)
    (state : CpuidleState) (request : Int) :
    new_events w (cluster_sleep pf env
        (tegra_gic_dist_enable (tegra_gic_disable_affinity
          ((tegra_gic_dist_disable w).emit Event.lp2_timer_cancel_secondary)))
        dev state request true) =
      [Event.gic_dist_disable, Event.lp2_timer_cancel_secondary, Event.gic_disable_affinity,
        Event.gic_dist_enable, Event.cpu_pm_enter, Event.broadcast_enter dev.cpu]
      ++ (if env.is_lp_cluster = true then [] else [Event.dvfs_rail_off])
      ++ [Event.idle_lp2_last
            (s64 (request - w.lp2_exit_latencies.getD (cpu_number env.is_lp_cluster dev.cpu) 0))
            (if env.is_lp_cluster = true then pf.TEGRA_POWER_CLUSTER_PART_NONCPU
              else if cluster_part_flag pf w = true then 1 else 0),
          Event.broadcast_exit dev.cpu]
      ++ (if env.is_lp_cluster = true then [] else [Event.dvfs_rail_on])
      ++ ([Event.gic_dist_disable, Event.gic_restore_affinity, Event.gic_dist_enable]
      ++ [Event.cpu_pm_exit]) := by
  unfold new_events
  rw [cluster_sleep_trace]
  cases env.is_lp_cluster <;>
    simp [World.emit, tegra_gic_dist_enable, tegra_gic_dist_disable, tegra_gic_disable_affinity,
      cluster_part_flag]

/-- C7: round-trip affinity, with the interrupt controller as explicit state.  For every
call of `tegra_cpu_cluster_power_down` that enters the multi-core quiescence protocol
(fast cluster, more than one CPU online, request at least the target residency): the call
returns unless `BUG_ON(wake_time < 0)` fires, and whenever it returns (aborted, woken early
or completed) the affinity configuration equals the one at entry and the distributor is
enabled; the affinity is restored exactly when it was diverted, which is exactly when the
call returns true, and the restore is the sequence disable distributor, restore affinity,
enable distributor. -/
theorem affinity_round_trip (pf : Platform) (env : Env) (w : World) (dev : CpuidleDevice)
    (state : CpuidleState) (request : Int)
    (hlp : env.is_lp_cluster = false) (hon : 1 < env.num_online_cpus_recheck)
    (hreq : (state.target_residency : Int) ≤ request) :
    (tegra_cpu_cluster_power_down pf env w dev state request = none ↔
      (tegra_rail_off_is_allowed env.rail_recheck = true ∧
        collective_wake_time env.entry_time_us request w.tegra_cpu_wake_by_time < 0)) ∧
    ∀ res : Result, tegra_cpu_cluster_power_down pf env w dev state request = some res →
      res.world.gic.affinity = w.gic.affinity ∧
      res.world.gic.dist_enabled = true ∧
      res.world.trace = w.trace ++ new_events w res ∧
      (Event.gic_restore_affinity ∈ new_events w res ↔
        Event.gic_disable_affinity ∈ new_events w res) ∧
      (Event.gic_disable_affinity ∈ new_events w res ↔ res.entered = true) ∧
      (Event.gic_restore_affinity ∈ new_events w res →
        ∃ before after : List Event, new_events w res =
          before ++ [Event.gic_dist_disable, Event.gic_restore_affinity, Event.gic_dist_enable]
            ++ after) := by
  rw [cluster_power_down_multi pf env w dev state request hreq hlp hon]
  have habort : ∀ rq : Int,
      (abort_wfi (tegra_gic_dist_enable (tegra_gic_dist_disable w)) state rq).world.gic.affinity
          = w.gic.affinity ∧
      (abort_wfi (tegra_gic_dist_enable (tegra_gic_dist_disable w)) state rq).world.gic.dist_enabled
          = true ∧
      (abort_wfi (tegra_gic_dist_enable (tegra_gic_dist_disable w)) state rq).world.trace =
        w.trace ++ new_events w
          (abort_wfi (tegra_gic_dist_enable (tegra_gic_dist_disable w)) state rq) ∧
      (Event.gic_restore_affinity ∈ new_events w
          (abort_wfi (tegra_gic_dist_enable (tegra_gic_dist_disable w)) state rq) ↔
        Event.gic_disable_affinity ∈ new_events w
          (abort_wfi (tegra_gic_dist_enable (tegra_gic_dist_disable w)) state rq)) ∧
      (Event.gic_disable_affinity ∈ new_events w
          (abort_wfi (tegra_gic_dist_enable (tegra_gic_dist_disable w)) state rq) ↔
        (abort_wfi (tegra_gic_dist_enable (tegra_gic_dist_disable w)) state rq).entered = true) ∧
      (Event.gic_restore_affinity ∈ new_events w
          (abort_wfi (tegra_gic_dist_enable (tegra_gic_dist_disable w)) state rq) →
        ∃ before after : List Event, new_events w
          (abort_wfi (tegra_gic_dist_enable (tegra_gic_dist_disable w)) state rq) =
          before ++ [Event.gic_dist_disable, Event.gic_restore_affinity, Event.gic_dist_enable]
            ++ after) := by
    intro rq
    rw [abort_after_dist_cycle_events]
    refine ⟨rfl, rfl, ?_, by simp, by simp [abort_wfi], by simp⟩
    simp [abort_wfi, World.emit, tegra_gic_dist_enable, tegra_gic_dist_disable]
  cases hr : tegra_rail_off_is_allowed env.rail_recheck
  · refine ⟨by simp, ?_⟩
    intro res hres
    simp only [if_true] at hres
    injection hres with hres
    subst hres
    exact habort request
  · simp only [Bool.true_eq_false, if_false, true_and]
    by_cases hwake : collective_wake_time env.entry_time_us request w.tegra_cpu_wake_by_time < 0
    · simp [hwake]
    · rw [if_neg hwake]
      by_cases hadj : adjusted_request env.entry_time_us request w.tegra_cpu_wake_by_time
          < (state.target_residency : Int)
      · rw [if_pos hadj]
        refine ⟨by simp [hwake], ?_⟩
        intro res hres
        injection hres with hres
        subst hres
        exact habort _
      · rw [if_neg hadj]
        refine ⟨by simp [hwake], ?_⟩
        intro res hres
        injection hres with hres
        subst hres
        rw [multi_sleep_events, cluster_sleep_gic, cluster_sleep_trace,
          (cluster_sleep_flags _ _ _ _ _ _ _).1]
        refine ⟨rfl, rfl, ?_, by simp, by simp, ?_⟩
        · cases env.is_lp_cluster <;>
            simp [World.emit, tegra_gic_dist_enable, tegra_gic_dist_disable,
              tegra_gic_disable_affinity, cluster_part_flag]
        · intro _
          exact ⟨[Event.gic_dist_disable, Event.lp2_timer_cancel_secondary,
              Event.gic_disable_affinity, Event.gic_dist_enable, Event.cpu_pm_enter,
              Event.broadcast_enter dev.cpu]
            ++ (if env.is_lp_cluster = true then [] else [Event.dvfs_rail_off])
            ++ [Event.idle_lp2_last
                  (s64 (adjusted_request env.entry_time_us request w.tegra_cpu_wake_by_time - w.lp2_exit_latencies.getD
                    (cpu_number env.is_lp_cluster dev.cpu) 0))
                  (if env.is_lp_cluster = true then pf.TEGRA_POWER_CLUSTER_PART_NONCPU
                    else if cluster_part_flag pf w = true then 1 else 0),
                Event.broadcast_exit dev.cpu]
            ++ (if env.is_lp_cluster = true then [] else [Event.dvfs_rail_on]),
            [Event.cpu_pm_exit], by simp⟩

/-- Witness of C7: core 0 enters the protocol with cores 1 and 3 parked, diverts the
affinity [2, 4, 8], sleeps to completion, and returns with the affinity restored. -/
theorem affinity_round_trip_witness :
    (demo_env_multi.is_lp_cluster = false ∧ 1 < demo_env_multi.num_online_cpus_recheck ∧
      (demo_state.target_residency : Int) ≤ 80000) ∧
    tegra_cpu_cluster_power_down demo_platform demo_env_multi demo_world_peers cpu0 demo_state 80000
      = some demo_multi_result ∧
    (demo_multi_result.world.gic.affinity = demo_world_peers.gic.affinity ∧
      demo_multi_result.world.gic.dist_enabled = true ∧
      demo_multi_result.world.trace =
        demo_world_peers.trace ++ new_events demo_world_peers demo_multi_result ∧
      (Event.gic_restore_affinity ∈ new_events demo_world_peers demo_multi_result ↔
        Event.gic_disable_affinity ∈ new_events demo_world_peers demo_multi_result) ∧
      (Event.gic_disable_affinity ∈ new_events demo_world_peers demo_multi_result ↔
        demo_multi_result.entered = true) ∧
      (Event.gic_restore_affinity ∈ new_events demo_world_peers demo_multi_result →
        ∃ before after : List Event, new_events demo_world_peers demo_multi_result =
          before ++ [Event.gic_dist_disable, Event.gic_restore_affinity, Event.gic_dist_enable]
            ++ after)) :=
  ⟨⟨by rfl, by decide, by decide⟩, by rfl,
   (affinity_round_trip demo_platform demo_env_multi demo_world_peers cpu0 demo_state 80000
      (by rfl) (by decide) (by decide)).2 demo_multi_result (by rfl)⟩

/-- Witness of C6: entry at 5000000 us with an 80 ms request while cores 1 and 3 must be
awake by 5060000 and 5030000: the collective wake time is 5030000 and the request
becomes 30000. -/
theorem collective_wake_time_is_min_witness :
    (demo_world_peers.tegra_cpu_wake_by_time = [LLONG_MAX, 5060000, LLONG_MAX, 5030000] ∧
      demo_env_multi.is_lp_cluster = false ∧ 1 < demo_env_multi.num_online_cpus_recheck ∧
      (demo_state.target_residency : Int) ≤ 80000 ∧ (80000 : Int) ≤ LLONG_MAX ∧
      tegra_rail_off_is_allowed demo_env_multi.rail_recheck = true ∧
      tegra_cpu_cluster_power_down demo_platform demo_env_multi demo_world_peers cpu0 demo_state
        80000 = some demo_multi_result) ∧
    collective_wake_time demo_env_multi.entry_time_us 80000
        demo_world_peers.tegra_cpu_wake_by_time = 5030000 ∧
    demo_multi_result.request = 30000 ∧
    (collective_wake_time demo_env_multi.entry_time_us 80000
        demo_world_peers.tegra_cpu_wake_by_time =
      min (s64 (demo_env_multi.entry_time_us + 80000)) (min 5060000 (min LLONG_MAX 5030000)) ∧
    demo_multi_result.request =
      s64 (collective_wake_time demo_env_multi.entry_time_us 80000
        demo_world_peers.tegra_cpu_wake_by_time - demo_env_multi.entry_time_us) ∧
    collective_wake_time demo_env_multi.entry_time_us 80000
      demo_world_peers.tegra_cpu_wake_by_time ≤ 5060000 ∧
    collective_wake_time demo_env_multi.entry_time_us 80000
      demo_world_peers.tegra_cpu_wake_by_time ≤ LLONG_MAX ∧
    collective_wake_time demo_env_multi.entry_time_us 80000
      demo_world_peers.tegra_cpu_wake_by_time ≤ 5030000 ∧
    collective_wake_time demo_env_multi.entry_time_us 80000
      demo_world_peers.tegra_cpu_wake_by_time
      ≤ s64 (demo_env_multi.entry_time_us + 80000) ∧
    ((5060000 : Int) = LLONG_MAX ∧ LLONG_MAX = LLONG_MAX ∧ (5030000 : Int) = LLONG_MAX →
      demo_multi_result.request = 80000) ∧
    (0 ≤ demo_env_multi.entry_time_us ∧ demo_env_multi.entry_time_us + 80000 ≤ LLONG_MAX ∧
        (0 : Int) ≤ 5060000 ∧ 0 ≤ LLONG_MAX ∧ (0 : Int) ≤ 5030000 →
      collective_wake_time demo_env_multi.entry_time_us 80000
          demo_world_peers.tegra_cpu_wake_by_time =
        min (demo_env_multi.entry_time_us + 80000) (min 5060000 (min LLONG_MAX 5030000)) ∧
      demo_multi_result.request =
        min (demo_env_multi.entry_time_us + 80000) (min 5060000 (min LLONG_MAX 5030000))
          - demo_env_multi.entry_time_us)) :=
  ⟨⟨by rfl, by rfl, by decide, by decide, by decide, by rfl, by rfl⟩, by rfl, by rfl,
   collective_wake_time_is_min demo_platform demo_env_multi demo_world_peers cpu0 demo_state
    80000 demo_multi_result LLONG_MAX 5060000 LLONG_MAX 5030000
    (by rfl) (by rfl) (by decide) (by decide) (by decide) (by rfl) (by rfl)⟩

/-! ## When the attempt does not return -/

theorem cluster_power_down_none_iff (pf : Platform) (env : Env) (w : World) (dev : CpuidleDevice)
    (state : CpuidleState) (request : Int) :
    tegra_cpu_cluster_power_down pf env w dev state request = none ↔
      ((state.target_residency : Int) ≤ request ∧ env.is_lp_cluster = false ∧
        1 < env.num_online_cpus_recheck ∧ tegra_rail_off_is_allowed env.rail_recheck = true ∧
        collective_wake_time env.entry_time_us request w.tegra_cpu_wake_by_time < 0) := by
  by_cases hreq : (state.target_residency : Int) ≤ request
  · by_cases hlp : env.is_lp_cluster = false
    · by_cases hon : 1 < env.num_online_cpus_recheck
      · rw [cluster_power_down_multi pf env w dev state request hreq hlp hon]
        cases hr : tegra_rail_off_is_allowed env.rail_recheck
        · simp
        · simp only [Bool.true_eq_false, if_false]
          split_ifs with h1 h2 <;> simp [hreq, hlp, hon, h1]
      · have hm : (!env.is_lp_cluster && decide (env.num_online_cpus_recheck > 1)) = false := by
          simp [hon]
        simp only [tegra_cpu_cluster_power_down, hm]
        rw [if_neg (by omega)]
        simp [hon]
    · have hm : (!env.is_lp_cluster && decide (env.num_online_cpus_recheck > 1)) = false := by
        simp at hlp
        simp [hlp]
      simp only [tegra_cpu_cluster_power_down, hm]
      rw [if_neg (by omega)]
      simp [hlp]
  · simp only [tegra_cpu_cluster_power_down]
    rw [if_pos (by omega)]
    simp [hreq]

/-- The attempt `tegra11x_idle_lp2` returns unless the cluster gate is chosen, the
multi-core protocol is entered with rail-off allowed, and `BUG_ON(wake_time < 0)` fires. -/
theorem idle_lp2_none_iff (pf : Platform) (env : Env) (w : World) (dev : CpuidleDevice)
    (state : CpuidleState) :
    tegra11x_idle_lp2 pf env w dev state = none ↔
      (power_gating_cpu_only pf env w dev = false ∧
        (state.target_residency : Int) ≤ env.sleep_length_us ∧ env.is_lp_cluster = false ∧
        1 < env.num_online_cpus_recheck ∧ tegra_rail_off_is_allowed env.rail_recheck = true ∧
        collective_wake_time env.entry_time_us env.sleep_length_us w.tegra_cpu_wake_by_time < 0) := by
  unfold tegra11x_idle_lp2
  cases hp : power_gating_cpu_only pf env w dev
  · simp only [Bool.false_eq_true, if_false, Option.map_eq_none', true_and]
    exact cluster_power_down_none_iff pf env _ dev state _
  · simp

end CpuidleT11x
